import Mathlib

/-!
Verification development for the Trini movie-recommendation core
(`src/lambdas/trinity-trini-dev`).  The Python source is shallowly embedded:
floats become `ℚ` (all constants in the source are short decimals), Python
ints become `Int`/`Nat`, fallible steps become `Option`, and the external
effects of the retrieval cascade (remote lambda, DynamoDB cache, Python's
process-seeded `hash`) become explicit parameters of a `SearchEnv` record.
String regexes are embedded as executable character-list scanners; where a
regex's word-boundary subtleties are irrelevant to every stated theorem,
alternation is modelled as substring containment (noted at each site).
-/

/-! ### Python string primitives (structural, so they reduce in the kernel) -/

/-- Python `needle in hay` (substring containment). -/
def strContains (hay needle : String) : Bool :=
  hay.toList.tails.any (fun t => needle.toList.isPrefixOf t)

/-- Python `str.isdigit()` : non-empty and all characters decimal digits. -/
def isDigitStr (s : String) : Bool :=
  s.toList ≠ [] && s.toList.all Char.isDigit

/-- Decimal value of a digit character list (used only on digit strings). -/
def digitsToNat (cs : List Char) : Nat :=
  cs.foldl (fun n c => 10 * n + (c.toNat - 48)) 0

/-- Python `int(s)` for a digit string. -/
def strToInt (s : String) : Int :=
  Int.ofNat (digitsToNat s.toList)

/-- ASCII lower-casing of one character (Python `str.lower`, restricted to the
ASCII range; every concrete input in this file is ASCII-lower-safe). -/
def pyCharLower (c : Char) : Char :=
  if 'A' ≤ c ∧ c ≤ 'Z' then Char.ofNat (c.toNat + 32) else c

/-- Python `s.lower()`. -/
def pyLower (s : String) : String :=
  String.mk (s.toList.map pyCharLower)

/-- Python `s.strip()` : drop leading and trailing whitespace. -/
def pyStrip (s : String) : String :=
  String.mk (((s.toList.dropWhile Char.isWhitespace).reverse.dropWhile
      Char.isWhitespace).reverse)

/-- Helper splitting a character list at a separator predicate, dropping
empty fragments (the behaviour of Python `str.split()` and of `\w+`
tokenisation). -/
def splitDropAux (p : Char → Bool) : List Char → List Char → List String
  | [], acc => if acc = [] then [] else [String.mk acc.reverse]
  | c :: cs, acc =>
    if p c then
      (if acc = [] then splitDropAux p cs []
       else String.mk acc.reverse :: splitDropAux p cs [])
    else splitDropAux p cs (c :: acc)

/-- Python `s.split()` (split on whitespace runs, no empty fragments). -/
def pyWords (s : String) : List String :=
  splitDropAux Char.isWhitespace s.toList []

/-- Python `\w` character class, ASCII approximation. -/
def isWordChar (c : Char) : Bool :=
  c.isAlphanum || c == '_'

/-- Tokens matched by `re.findall(r"\b\w+\b", s)`, ASCII approximation. -/
def pyFindWords (s : String) : List String :=
  splitDropAux (fun c => !isWordChar c) s.toList []

/-- Keep the first occurrence of each element (the `seen` loop of
`_build_cache_key_strategy`). -/
def dedupFirstAux (seen : List String) : List String → List String
  | [] => []
  | k :: ks =>
    if k ∈ seen then dedupFirstAux seen ks
    else k :: dedupFirstAux (k :: seen) ks

def dedupFirst (l : List String) : List String := dedupFirstAux [] l

/-! ### Stable sorting, modelling Python `list.sort(key=…, reverse=True)`
(insertion sort is stable and, unlike `List.mergeSort`, reduces in the
kernel). -/

def insertDescBy {α : Type} (key : α → ℚ) (x : α) : List α → List α
  | [] => [x]
  | y :: ys => if key x < key y then y :: insertDescBy key x ys else x :: y :: ys

def sortDescBy {α : Type} (key : α → ℚ) : List α → List α
  | [] => []
  | x :: xs => insertDescBy key x (sortDescBy key xs)

/-! ### Data model (`models/extracted_filters.py`) -/

structure YearRange where
  min_year : Option Int := none
  max_year : Option Int := none
  deriving DecidableEq, Repr

structure RatingRange where
  min_rating : Option ℚ := none
  max_rating : Option ℚ := none
  deriving DecidableEq, Repr

/-- A genre entry as it exists at runtime.  `ExtractedFilters.genres` is
declared `List[str]  # TMDB genre IDs as strings` in the source, but the
Spanish-comedy branch of the fallback extractor stores Python `int`s, so the
embedding keeps both shapes. -/
inductive GenreVal where
  | str (s : String)
  | int (n : Int)
  deriving DecidableEq, Repr

/-- Python `str(g)` on a genre entry. -/
def pyStrOfGenre : GenreVal → String
  | .str s => s
  | .int n => toString n

structure ExtractedFilters where
  genres : List GenreVal := []
  year_range : Option YearRange := none
  rating_range : Option RatingRange := none
  keywords : List String := []
  intent : String := "recommendation"
  confidence : ℚ := 0
  exclude_ids : List String := []
  deriving DecidableEq, Repr

/-- `ExtractedFilters.has_filters`. -/
def hasFilters (f : ExtractedFilters) : Bool :=
  f.genres ≠ [] || f.year_range.isSome || f.rating_range.isSome || f.keywords ≠ []

/-- `ExtractedFilters.get_tmdb_genre_ids`.  The list comprehension calls
`.isdigit()` on every entry; an `int` entry raises `AttributeError`, which the
surrounding `except` turns into `[]`. -/
def getTmdbGenreIds (f : ExtractedFilters) : List Int :=
  if f.genres.all (fun g => match g with | .str _ => true | .int _ => false) then
    f.genres.filterMap (fun g =>
      match g with
      | .str s => if isDigitStr s then some (strToInt s) else none
      | .int _ => none)
  else []

/-- Python truthiness of an optional int (`None` and `0` are falsy). -/
def pyTruthyI (o : Option Int) : Bool :=
  match o with
  | some n => n ≠ 0
  | none => false

/-- Python truthiness of an optional float (`None` and `0.0` are falsy). -/
def pyTruthyQ (o : Option ℚ) : Bool :=
  match o with
  | some q => q ≠ 0
  | none => false

/-! ### JSON values (results of `json.loads`).  JSON integers and floats are
distinct Python types, and `bool` is a subclass of `int`; all three are kept
apart so the `isinstance` tests can be embedded faithfully. -/

inductive Json where
  | null
  | bool (b : Bool)
  | int (n : Int)
  | float (q : ℚ)
  | str (s : String)
  | arr (elems : List Json)
  | obj (fields : List (String × Json))

/-- Dictionary lookup (`parsed.get(k)`); payload objects are modelled with
unique keys, so first-match lookup coincides with `dict` semantics. -/
def jsonGet (fields : List (String × Json)) (k : String) : Option Json :=
  (fields.find? (fun p => p.1 == k)).map (fun p => p.2)

/-- Value of a Python `isinstance(x, (int, float))` test (`bool` counts as
`int`, with `True == 1` and `False == 0`). -/
def jnumQ : Json → Option ℚ
  | .int n => some (n : ℚ)
  | .float q => some q
  | .bool b => some (if b then 1 else 0)
  | _ => none

/-- Value of a Python `isinstance(x, int)` test (again including `bool`). -/
def jintZ : Json → Option Int
  | .int n => some n
  | .bool b => some (if b then 1 else 0)
  | _ => none

/-! ### Genre table (`utils/constants.py` `TMDB_GENRE_MAP`) -/

def TMDB_GENRE_MAP : List (String × String) := [
  ("accion", "28"), ("action", "28"), ("aventura", "12"), ("adventure", "12"),
  ("comedia", "35"), ("comedy", "35"), ("gracioso", "35"), ("divertido", "35"),
  ("humor", "35"),
  ("drama", "18"), ("dramatico", "18"),
  ("terror", "27"), ("horror", "27"), ("miedo", "27"),
  ("suspenso", "53"), ("thriller", "53"),
  ("romance", "10749"), ("romantico", "10749"), ("amor", "10749"),
  ("ciencia ficcion", "878"), ("sci-fi", "878"), ("scifi", "878"),
  ("futurista", "878"),
  ("fantasia", "14"), ("fantasy", "14"), ("magico", "14"),
  ("crimen", "80"), ("crime", "80"), ("policial", "80"),
  ("animacion", "16"), ("animation", "16"), ("animada", "16"), ("dibujos", "16"),
  ("documental", "99"), ("documentary", "99"),
  ("familiar", "10751"), ("family", "10751"), ("ninos", "10751"),
  ("infantil", "10751"),
  ("historia", "36"), ("history", "36"), ("historico", "36"),
  ("musica", "10402"), ("music", "10402"), ("musical", "10402"),
  ("misterio", "9648"), ("mystery", "9648"),
  ("guerra", "10752"), ("war", "10752"), ("belico", "10752"),
  ("western", "37"), ("oeste", "37")]

/-- Fuzzy patterns of `GenreMapper._create_pattern_mappings`.  Each source
regex is a word-boundary alternation `\b(w1|w2|…)\b`; it is embedded as the
list of its alternatives, matched by substring containment (the `\b` checks
are dropped — no theorem below depends on the exact match semantics, only on
the genre-id values a match contributes). -/
def genrePatterns : List (List String × List String) := [
  (["terror", "miedo", "horror", "espanto"], ["27"]),
  (["comedia", "gracioso", "divertido", "humor", "chistoso"], ["35"]),
  (["acción", "accion", "aventura", "action"], ["28", "12"]),
  (["romance", "romántico", "romantico", "amor"], ["10749"]),
  (["drama", "dramático", "dramatico"], ["18"]),
  (["ciencia ficción", "sci-fi", "scifi", "futurista", "espacial"], ["878"]),
  (["fantasía", "fantasia", "fantasy", "mágico", "magico"], ["14"]),
  (["crimen", "policial", "detective", "noir"], ["80"]),
  (["animación", "animacion", "animation", "dibujos", "caricatura"], ["16"]),
  (["documental", "documentary"], ["99"]),
  (["familiar", "family", "niños", "ninos", "infantil"], ["10751"]),
  (["historia", "histórico", "historico", "history"], ["36"]),
  (["música", "musica", "music", "musical"], ["10402"]),
  (["misterio", "mystery", "enigma"], ["9648"]),
  (["guerra", "war", "bélico", "belico"], ["10752"]),
  (["western", "oeste", "vaqueros"], ["37"]),
  (["suspenso", "thriller", "tensión", "tension"], ["53"])]

/-- `GenreMapper.extract_genres_from_text`: exact substring hits on the genre
map plus fuzzy-pattern hits, collected into a set.  Python's `list(set(…))`
order is unspecified; the embedding keeps first-seen order. -/
def extract_genres_from_text (text : String) : List String :=
  let lower := pyLower text
  let exact := (TMDB_GENRE_MAP.filter (fun p => strContains lower p.1)).map
    (fun p => p.2)
  let pats := (genrePatterns.filter (fun p =>
      p.1.any (fun alt => strContains lower alt))).foldl
    (fun acc p => acc ++ p.2) []
  dedupFirst (exact ++ pats)

/-- `GenreMapper.get_genre_id_by_name`: exact dictionary-key lookup, then the
first matching fuzzy pattern's first id. -/
def get_genre_id_by_name (genre_name : String) : Option String :=
  let nl := pyStrip (pyLower genre_name)
  match TMDB_GENRE_MAP.find? (fun p => p.1 == nl) with
  | some p => some p.2
  | none =>
    match genrePatterns.find? (fun p => p.1.any (fun alt => strContains nl alt)) with
    | some p => p.2.head?
    | none => none

/-! ### Response validation (`utils/ai_prompt_generator.py`) -/

/-- `AIPromptGenerator._validate_json_structure`. -/
def validate_json_structure (fields : List (String × Json)) : Bool :=
  (jsonGet fields "genres").isSome &&
  (jsonGet fields "intent").isSome &&
  (jsonGet fields "confidence").isSome &&
  (match jsonGet fields "genres" with
   | some (.arr _) => true
   | _ => false) &&
  (match jsonGet fields "intent" with
   | some (.str s) =>
     s == "recommendation" || s == "information" || s == "clarification"
   | _ => false) &&
  (match (jsonGet fields "confidence").bind jnumQ with
   | some c => decide ((0 : ℚ) ≤ c ∧ c ≤ 1)
   | none => false)

/-- `AIPromptGenerator._extract_and_validate_genres`.  String digit entries
and int entries in `[1, 99999]` are kept (ints stringified); other strings go
through the genre-name mapper; anything else is dropped.  A `bool` entry
passes Python's `isinstance(genre, int)`. -/
def extract_and_validate_genres (genres_data : List Json) : List GenreVal :=
  genres_data.filterMap (fun g =>
    match g with
    | .str s =>
      if isDigitStr s then
        if 1 ≤ strToInt s ∧ strToInt s ≤ 99999 then some (.str s) else none
      else
        (get_genre_id_by_name (pyLower s)).map GenreVal.str
    | .int n => if 1 ≤ n ∧ n ≤ 99999 then some (.str (toString n)) else none
    | .bool b => if b then some (.str "True") else none
    | _ => none)

/-- One bound of `_extract_and_validate_year_range` (`isinstance(y, int)` and
`1900 <= y <= 2030`, else discarded; JSON `null` reads back as `None`). -/
def validYearField (o : Option Json) : Option Int :=
  match o with
  | some j =>
    match jintZ j with
    | some n => if 1900 ≤ n ∧ n ≤ 2030 then some n else none
    | none => none
  | none => none

/-- `AIPromptGenerator._extract_and_validate_year_range`: non-dict (or empty
dict, which is falsy) input gives `None`; each bound is validated
independently; an inverted pair is swapped. -/
def extract_and_validate_year_range (year_data : Option Json) : Option YearRange :=
  match year_data with
  | some (.obj fields) =>
    if fields.isEmpty then none
    else
      let m0 := validYearField (jsonGet fields "min")
      let M0 := validYearField (jsonGet fields "max")
      let mM :=
        if pyTruthyI m0 ∧ pyTruthyI M0 ∧ m0.getD 0 > M0.getD 0
        then (M0, m0) else (m0, M0)
      if mM.1.isSome ∨ mM.2.isSome then
        some { min_year := mM.1, max_year := mM.2 }
      else none
  | _ => none

/-- One bound of `_extract_and_validate_rating_range`
(`isinstance(r, (int, float))` and `0.0 <= r <= 10.0`, else discarded). -/
def validRatingField (o : Option Json) : Option ℚ :=
  match o with
  | some j =>
    match jnumQ j with
    | some q => if 0 ≤ q ∧ q ≤ 10 then some q else none
    | none => none
  | none => none

/-- `AIPromptGenerator._extract_and_validate_rating_range`.  The swap guard
uses Python truthiness, so a bound equal to `0.0` never triggers a swap. -/
def extract_and_validate_rating_range (fields : List (String × Json)) :
    Option RatingRange :=
  let rm0 := validRatingField (jsonGet fields "rating_min")
  let rM0 := validRatingField (jsonGet fields "rating_max")
  let rr :=
    if pyTruthyQ rm0 ∧ pyTruthyQ rM0 ∧ rm0.getD 0 > rM0.getD 0
    then (rM0, rm0) else (rm0, rM0)
  if rr.1.isSome ∨ rr.2.isSome then
    some { min_rating := rr.1, max_rating := rr.2 }
  else none

/-- `AIPromptGenerator._extract_and_validate_keywords`: strings trimmed and
kept when their length is in `[2, 50]`, capped at 10. -/
def extract_and_validate_keywords (keywords_data : List Json) : List String :=
  (keywords_data.filterMap (fun j =>
    match j with
    | .str s =>
      let c := pyStrip s
      if 2 ≤ c.length ∧ c.length ≤ 50 then some c else none
    | _ => none)).take 10

/-- `AIPromptGenerator._validate_intent`. -/
def validate_intent (j : Json) : String :=
  match j with
  | .str s =>
    if pyLower s = "recommendation" ∨ pyLower s = "information" ∨
       pyLower s = "clarification"
    then pyLower s else "recommendation"
  | _ => "recommendation"

/-- `AIPromptGenerator._validate_confidence`: numbers clamped to `[0, 1]`,
anything else becomes `0.1`. -/
def validate_confidence (j : Json) : ℚ :=
  match jnumQ j with
  | some q => max 0 (min 1 q)
  | none => 0.1

/-- Weighted signal count of `_apply_ambiguity_detection` (genre, year and
rating count 1 each, every keyword 0.1). -/
def filterCount (f : ExtractedFilters) : ℚ :=
  (if f.genres ≠ [] then 1 else 0) +
  (if f.year_range.isSome then 1 else 0) +
  (if f.rating_range.isSome then 1 else 0) +
  (if f.keywords ≠ [] then (f.keywords.length : ℚ) * (1/10) else 0)

/-- `AIPromptGenerator._apply_ambiguity_detection` (confidence calibration):
0 signals cap confidence at 0.2 and force clarification, fewer than 1 signal
caps at 0.4, 2 or more signals add a relative boost of at most 10% (capped at
1.0); a year span above 30 caps confidence at 0.6; finally an intent of
recommendation with confidence below 0.5 is turned into clarification. -/
def apply_ambiguity_detection (f : ExtractedFilters) : ExtractedFilters :=
  let origc := f.confidence
  let fc := filterCount f
  let c1 := if fc = 0 then min origc (2/10)
    else if fc < 1 then min origc (4/10)
    else if fc ≥ 2 then min (origc + min (origc * (1/10)) (1/10)) 1
    else origc
  let i1 := if fc = 0 then "clarification" else f.intent
  let c2 :=
    match f.year_range with
    | some yr =>
      if pyTruthyI yr.min_year ∧ pyTruthyI yr.max_year ∧
         yr.max_year.getD 0 - yr.min_year.getD 0 > 30
      then min c1 (6/10) else c1
    | none => c1
  let i2 := if c2 < 1/2 ∧ i1 = "recommendation" then "clarification" else i1
  { f with confidence := c2, intent := i2 }

/-- `AIPromptGenerator._parse_and_validate_json_response` on an
already-parsed JSON document (the `json.loads` string step is abstracted:
`none` below corresponds to a parse failure).  A non-object document fails
the structure checks; an unusable `keywords` value raises `TypeError`, which
the surrounding `except` turns into `None`; iterating a string yields its
one-character substrings and a dict yields its keys. -/
def parse_and_validate_json_response (j : Json) : Option ExtractedFilters :=
  match j with
  | .obj fields =>
    if validate_json_structure fields then
      let genresJ := match jsonGet fields "genres" with
        | some (.arr xs) => xs
        | _ => []
      let keywordsRes : Option (List String) :=
        match jsonGet fields "keywords" with
        | none => some []
        | some (.arr xs) => some (extract_and_validate_keywords xs)
        | some (.str s) =>
          some (extract_and_validate_keywords (s.toList.map
            (fun c => Json.str (String.mk [c]))))
        | some (.obj fs) =>
          some (extract_and_validate_keywords (fs.map (fun p => Json.str p.1)))
        | some _ => none
      match keywordsRes with
      | none => none
      | some kws =>
        some (apply_ambiguity_detection {
          genres := extract_and_validate_genres genresJ
          year_range := extract_and_validate_year_range (jsonGet fields "year_range")
          rating_range := extract_and_validate_rating_range fields
          keywords := kws
          intent := validate_intent ((jsonGet fields "intent").getD .null)
          confidence := validate_confidence ((jsonGet fields "confidence").getD .null)
          exclude_ids := [] })
    else none
  | _ => none

/-! ### Deterministic fallback extraction (`extract_keywords_with_patterns`
and its helper pattern functions) -/

/-- Decade/era table of `_extract_year_range_patterns` (checked in source
order, before any bare year).  Each regex alternation is embedded as a list
of alternatives matched by substring containment (see the file header). -/
def decadePatterns (currentYear : Int) : List (List String × YearRange) := [
  (["años 90", "año 90", "años noventa", "año noventa", "90s", "90"],
    { min_year := some 1990, max_year := some 1999 }),
  (["años 80", "año 80", "años ochenta", "año ochenta", "80s", "80"],
    { min_year := some 1980, max_year := some 1989 }),
  (["años 2000", "año 2000", "década del 2000", "década de 2000", "2000s", "2000"],
    { min_year := some 2000, max_year := some 2009 }),
  (["años 2010", "año 2010", "década del 2010", "década de 2010", "2010s", "2010"],
    { min_year := some 2010, max_year := some 2019 }),
  (["recientes", "reciente", "actuales", "actual", "nuevas", "nueva", "nuevos", "nuevo"],
    { min_year := some (currentYear - 3), max_year := some currentYear }),
  (["clásicas", "clásica", "antiguos", "antiguo", "viejas", "vieja"],
    { min_year := some 1950, max_year := some 1990 })]

/-- Does a 4-digit year `(19|20)\d{2}` start here, with a word boundary
after it? -/
def yearAtHead (xs : List Char) : Bool :=
  match xs with
  | a :: b :: c :: d :: rest =>
    ((a == '1' && b == '9') || (a == '2' && b == '0')) &&
    c.isDigit && d.isDigit &&
    (match rest with
     | [] => true
     | r :: _ => !isWordChar r)
  | _ => false

/-- Numeric value of the 4 leading digit characters. -/
def yearValueAtHead (xs : List Char) : Int :=
  match xs with
  | a :: b :: c :: d :: _ =>
    Int.ofNat (digitsToNat [a, b, c, d])
  | _ => 0

/-- Scanner for `re.search(r"\b(19|20)\d{2}\b", q)`: first position with a
word boundary before and after a `(19|20)\d{2}` group. -/
def findBareYearAux (prev : Option Char) : List Char → Option Int
  | [] => none
  | c :: cs =>
    if (match prev with
        | none => true
        | some p => !isWordChar p) && yearAtHead (c :: cs) then
      some (yearValueAtHead (c :: cs))
    else findBareYearAux (some c) cs

def findBareYear (q : String) : Option Int :=
  findBareYearAux none q.toList

/-- `AIPromptGenerator._extract_year_range_patterns`: decades and eras first
(first match wins), then a bare 4-digit year giving a ±2-year window. -/
def extract_year_range_patterns (currentYear : Int) (query : String) :
    Option YearRange :=
  match (decadePatterns currentYear).find?
      (fun p => p.1.any (fun alt => strContains query alt)) with
  | some p => some p.2
  | none =>
    (findBareYear query).map
      (fun y => { min_year := some (y - 2), max_year := some (y + 2) })

/-- Parse `\d+(?:\.\d+)?` at the head of the character list, returning the
value and the remaining characters. -/
def parseNumberAtHead (xs : List Char) : Option (ℚ × List Char) :=
  let ds := xs.takeWhile Char.isDigit
  if ds = [] then none
  else
    let rest := xs.drop ds.length
    let ip : ℚ := (digitsToNat ds : ℚ)
    match rest with
    | '.' :: r2 =>
      let fs := r2.takeWhile Char.isDigit
      if fs = [] then some (ip, rest)
      else some (ip + (digitsToNat fs : ℚ) / ((10 : ℚ) ^ fs.length),
        r2.drop fs.length)
    | _ => some (ip, rest)

/-- Unit words of the explicit-rating regex
`(?:estrellas?|stars?|puntos?|rating)`, longest alternative first. -/
def ratingUnits : List String :=
  ["estrellas", "estrella", "stars", "star", "puntos", "punto", "rating"]

/-- After the number and `\s*`, is there a unit word followed by a word
boundary? -/
def ratingUnitAt (xs : List Char) : Bool :=
  ratingUnits.any (fun u =>
    u.toList.isPrefixOf xs &&
    (match xs.drop u.toList.length with
     | [] => true
     | r :: _ => !isWordChar r))

/-- Scanner for `re.search(r"\b(\d+(?:\.\d+)?)\s*(?:estrellas?|stars?|puntos?|rating)\b", q)`:
the numeric group of the first match. -/
def findExplicitRatingAux (prev : Option Char) : List Char → Option ℚ
  | [] => none
  | c :: cs =>
    (if (match prev with
         | none => true
         | some p => !isWordChar p) then
      match parseNumberAtHead (c :: cs) with
      | some (v, rest) =>
        if ratingUnitAt (rest.dropWhile Char.isWhitespace) then some v
        else findExplicitRatingAux (some c) cs
      | none => findExplicitRatingAux (some c) cs
    else findExplicitRatingAux (some c) cs)

def findExplicitRating (q : String) : Option ℚ :=
  findExplicitRatingAux none q.toList

/-- Scanner for the second rating regex
`re.search(r"\brating\s+de\s+(\d+(?:\.\d+)?)\b", q)`. -/
def ratingDeAt (xs : List Char) : Option ℚ :=
  if ("rating".toList).isPrefixOf xs then
    let r1 := xs.drop 6
    let sp1 := r1.takeWhile Char.isWhitespace
    if sp1 = [] then none
    else
      let r2 := r1.drop sp1.length
      if ("de".toList).isPrefixOf r2 then
        let r3 := r2.drop 2
        let sp2 := r3.takeWhile Char.isWhitespace
        if sp2 = [] then none
        else
          match parseNumberAtHead (r3.drop sp2.length) with
          | some (v, rest) =>
            (match rest with
             | [] => some v
             | r :: _ => if isWordChar r then none else some v)
          | none => none
      else none
  else none

def findRatingDeAux (prev : Option Char) : List Char → Option ℚ
  | [] => none
  | c :: cs =>
    (if (match prev with
         | none => true
         | some p => !isWordChar p) then
      match ratingDeAt (c :: cs) with
      | some v => some v
      | none => findRatingDeAux (some c) cs
    else findRatingDeAux (some c) cs)

def findRatingDe (q : String) : Option ℚ :=
  findRatingDeAux none q.toList

/-- Quality-adjective table of `_extract_rating_patterns` (alternations
embedded as substring alternatives, see the file header). -/
def qualityPatterns : List (List String × ℚ) := [
  (["excelentes", "excelente", "increíbles", "increíble",
    "fantásticas", "fantástica", "geniales", "genial"], 8),
  (["buenas", "buena", "buenos", "bueno",
    "recomendadas", "recomendada", "populares", "popular"], 7),
  (["decentes", "decente", "aceptables", "aceptable"], 6)]

/-- `AIPromptGenerator._extract_rating_patterns`: an explicit
"N estrellas/stars/puntos/rating" value is clamped to `[0, 10]` (not
discarded); then the `rating de N` form, also clamped; then quality
adjectives mapping to 8.0 / 7.0 / 6.0. -/
def extract_rating_patterns (query : String) : Option ℚ :=
  match findExplicitRating query with
  | some r => some (min (max r 0) 10)
  | none =>
    match findRatingDe query with
    | some r => some (min (max r 0) 10)
    | none =>
      (qualityPatterns.find?
        (fun p => p.1.any (fun alt => strContains query alt))).map
        (fun p => p.2)

/-- Bilingual stop-word list of `_extract_basic_keywords`. -/
def stopWords : List String :=
  ["el", "la", "los", "las", "un", "una", "de", "del", "en", "con", "por",
   "para", "que", "se", "me", "te", "le", "nos", "les", "y", "o", "pero",
   "si", "no", "the", "a", "an", "and", "or", "but", "in", "on", "at", "to",
   "for", "of", "with", "by", "from", "up", "about", "into", "through",
   "during", "before", "after", "above", "below", "between", "among", "is",
   "are", "was", "were", "be", "been", "being", "have", "has", "had", "do",
   "does", "did", "will", "would", "could", "should", "may", "might", "must",
   "can", "shall"]

/-- `AIPromptGenerator._extract_basic_keywords`: `\w+` tokens of the
lower-cased query, longer than 2 characters, not stop words, first 10. -/
def extract_basic_keywords (query : String) : List String :=
  ((pyFindWords (pyLower query)).filter
    (fun w => w.length > 2 && w ∉ stopWords)).take 10

/-- Information-seeking cue alternatives of `_determine_intent_patterns`
(three alternation regexes, embedded as substring alternatives). -/
def infoCues : List String :=
  ["qué tal", "cómo está", "opinión", "review", "crítica",
   "cuándo", "dónde", "quién", "por qué", "cómo",
   "información", "detalles", "datos"]

/-- `AIPromptGenerator._determine_intent_patterns`. -/
def determine_intent_patterns (query : String) : String :=
  if infoCues.any (fun cue => strContains query cue) then "information"
  else if (pyWords query).length ≤ 2 ∨
    (["algo", "cualquier", "no sé"].any (fun w => strContains query w)) then
    "clarification"
  else "recommendation"

/-- `AIPromptGenerator.extract_keywords_with_patterns`: the deterministic
fallback extractor.  The Spanish-comedy branch overrides genres (with the
int `35`, not the string "35"), keywords and confidence; otherwise the
confidence ladder is 0.6 with a genre, 0.4 with a keyword, else 0.2.  The
current year is a parameter (`datetime.now().year`). -/
def extract_keywords_with_patterns (currentYear : Int) (query : String) :
    ExtractedFilters :=
  let ql := pyLower query
  let genres0 := (extract_genres_from_text query).map GenreVal.str
  let branch :=
    if strContains ql "comedia" &&
       (strContains ql "español" || strContains ql "española") then
      ([GenreVal.int 35], ["comedia", "española", "español"], (8/10 : ℚ))
    else
      let kws := extract_basic_keywords query
      (genres0, kws,
        if genres0 ≠ [] then (6/10 : ℚ) else if kws ≠ [] then 4/10 else 2/10)
  let rating_min := extract_rating_patterns ql
  { genres := branch.1
    year_range := extract_year_range_patterns currentYear ql
    rating_range := rating_min.map
      (fun r => { min_rating := some r, max_rating := none })
    keywords := branch.2.1
    intent := determine_intent_patterns ql
    confidence := branch.2.2
    exclude_ids := [] }

/-- `AIPromptGenerator.process_ai_response` without a user context (the
context only populates `exclude_ids`).  `parsed` is the `json.loads` result
of the raw model output (`none` = parse failure); `extracted` is the parsed
result of `_extract_json_from_mixed_content`, the regex recovery pass over
the same raw text (`none` = nothing extractable; the function only ever
returns strings that `json.loads` accepts).  The raw response string itself
is not modelled, so the recovery outcome is an explicit input, like the
other external effects in this file.  When the first validation fails, the
recovered document is validated in a second pass; only when both fail does
the deterministic fallback run with its confidence capped at 0.4. -/
def process_ai_response (currentYear : Int) (parsed extracted : Option Json)
    (user_query : String) : ExtractedFilters :=
  match parsed.bind parse_and_validate_json_response with
  | some f => f
  | none =>
    match extracted.bind parse_and_validate_json_response with
    | some f => f
    | none =>
      let fb := extract_keywords_with_patterns currentYear user_query
      { fb with confidence := min fb.confidence (4/10) }

/-- Vague-term list of `detect_ambiguous_query`. -/
def vagueTerms : List String :=
  ["algo", "something", "cualquier", "anything", "no sé", "dont know",
   "bueno", "good", "entretenimiento", "entertainment", "película", "movie",
   "film", "ver", "watch", "recomendación", "recommendation"]

/-- `AIPromptGenerator.detect_ambiguous_query`: with at least one genre, a
year range, a rating range or two keywords, ambiguity is exactly
`confidence < 0.2`; otherwise low confidence (< 0.5) or a composite
ambiguity score of at least 0.5. -/
def detect_ambiguous_query (f : ExtractedFilters) (user_query : String) : Bool :=
  let hasSpecificFilters :=
    f.genres.length > 0 || f.year_range.isSome || f.rating_range.isSome ||
    f.keywords.length ≥ 2
  if hasSpecificFilters then decide (f.confidence < 2/10)
  else if f.confidence < 1/2 then true
  else
    let s1 : ℚ :=
      (if !hasFilters f then 4/10 else 0) +
      (if f.genres.length = 0 then 2/10 else 0) +
      (if f.year_range.isNone ∧ f.rating_range.isNone then 2/10 else 0)
    let s2 : ℚ :=
      if user_query ≠ "" then
        let ql := pyStrip (pyLower user_query)
        (if (pyWords ql).length ≤ 2 then 3/10 else 0) +
        (let vcount := (vagueTerms.filter (fun t => strContains ql t)).length
         if vcount ≥ 2 then 3/10
         else if vcount = 1 ∧ (pyWords ql).length ≤ 3 then 2/10 else 0)
      else 0
    decide (s1 + s2 ≥ 1/2)

/-- Presentation of an `ExtractedFilters` value in the AI-response payload
schema consumed by `_parse_and_validate_json_response` (the round trip of
the idempotence property: validated output offered again as a payload). -/
def filtersToPayload (f : ExtractedFilters) : Json :=
  .obj [
    ("genres", .arr (f.genres.map (fun g =>
      match g with
      | .str s => Json.str s
      | .int n => Json.int n))),
    ("year_range",
      match f.year_range with
      | none => .null
      | some yr => .obj [
          ("min", match yr.min_year with
            | some m => Json.int m
            | none => Json.null),
          ("max", match yr.max_year with
            | some M => Json.int M
            | none => Json.null)]),
    ("rating_min",
      match f.rating_range with
      | some rr =>
        match rr.min_rating with
        | some r => Json.float r
        | none => Json.null
      | none => .null),
    ("rating_max",
      match f.rating_range with
      | some rr =>
        match rr.max_rating with
        | some r => Json.float r
        | none => Json.null
      | none => .null),
    ("keywords", .arr (f.keywords.map Json.str)),
    ("intent", .str f.intent),
    ("confidence", .float f.confidence)]

/-! ### Movie search service (`utils/movie_search_service.py`)

Raw candidate records are heterogeneous dicts; the embedding projects them
onto the fields the service reads (with the `x`/`mediaX` lookup pairs
collapsed into one field each, as the code treats them as one value).
External effects are an explicit `SearchEnv`: the remote lambda attempt
outcomes (`none` = exception raised), the DynamoDB cache fetch (errors are
already turned into `[]` by `_get_cached_movies_from_dynamodb`), a flag for
an exception inside the curated-defaults tier body (the orchestrator catches
any and advances), and Python's process-seeded `hash` as `abs(hash(·))`
functions. -/

structure RawMovie where
  id : Option String := none
  title : String := ""
  overview : String := ""
  rating : Option ℚ := none
  voteAverage : Option ℚ := none
  releaseDate : String := ""
  genreIds : List Int := []
  voteCount : Int := 0
  poster : Option String := none
  deriving DecidableEq, Repr

/-- `float(movie.get('rating', movie.get('vote_average', 0)))`. -/
def ratingVal (m : RawMovie) : ℚ :=
  ((m.rating).orElse (fun _ => m.voteAverage)).getD 0

/-- A movie identity as stored in a recommendation: normalized movies carry
a numeric id, the emergency sentinel keeps its raw string id. -/
inductive MovieId where
  | int (n : Int)
  | str (s : String)
  deriving DecidableEq, Repr

/-- Python `str(·)` on a stored movie id. -/
def pyStrOfMovieId : MovieId → String
  | .int n => toString n
  | .str s => s

/-- `MovieRecommendation` (`models/trini_response.py`) with the normalized
movie dict flattened into the fields read downstream. -/
structure MovieRec where
  movieId : MovieId
  movieTitle : String
  movieOverview : String
  moviePoster : String
  movieRating : ℚ
  movieReleaseDate : String
  relevance_score : ℚ
  reasoning : String
  source : String
  deriving DecidableEq, Repr

structure SearchEnv where
  lambdaAttempts : List (Option (List RawMovie))
  cacheFetch : String → List RawMovie
  tertiaryRaises : Bool
  hashScore : String → Nat
  hashId : String → Nat
  hashRecord : RawMovie → Nat

/-- `_invoke_movie_lambda_with_retry`: attempts in order; a non-empty result
returns, an empty result or a non-final exception continues, an exception on
the final attempt re-raises (`none`), an exhausted loop returns `[]`. -/
def retryLoop : List (Option (List RawMovie)) → Option (List RawMovie)
  | [] => some []
  | some ms :: rest => if ms ≠ [] then some ms else retryLoop rest
  | none :: rest => if rest = [] then none else retryLoop rest

/-! #### Relevance scoring (`_calculate_relevance_score` and components) -/

/-- `_calculate_genre_match_score`. -/
def calculate_genre_match_score (m : RawMovie) (f : ExtractedFilters) : ℚ :=
  if f.genres = [] then 1/2
  else if m.genreIds ≠ [] then
    let movieSet := dedupFirst (m.genreIds.map toString)
    let filterSet := dedupFirst (f.genres.map pyStrOfGenre)
    let matchCount := (movieSet.filter (fun g => g ∈ filterSet)).length
    if filterSet.length > 0 then (matchCount : ℚ) / (filterSet.length : ℚ)
    else 9/10
  else 9/10

/-- `_calculate_rating_score`. -/
def calculate_rating_score (m : RawMovie) : ℚ :=
  let rating := ratingVal m
  if rating ≤ 0 then 3/10
  else if rating ≥ 8 then 1
  else if rating ≥ 7 then 8/10 + (rating - 7) * (2/10)
  else if rating ≥ 6 then 6/10 + (rating - 6) * (2/10)
  else if rating ≥ 5 then 4/10 + (rating - 5) * (2/10)
  else rating / 5 * (4/10)

/-- `int(release_date[:4])`: Python `int` on the first four characters
(`none` = `ValueError`). -/
def parseYear4 (s : String) : Option Int :=
  let t := (s.toList.take 4).dropWhile Char.isWhitespace
  if t ≠ [] ∧ t.all Char.isDigit then some (Int.ofNat (digitsToNat t))
  else none

/-- `_calculate_year_proximity_score`: 1.0 inside the (possibly one-sided)
range, else a 10%-per-year distance penalty floored at 0.1; 0.5 with no year
preference, 0.3 for a missing or unparsable date. -/
def calculate_year_proximity_score (m : RawMovie) (f : ExtractedFilters) : ℚ :=
  match f.year_range with
  | none => 1/2
  | some yr =>
    if m.releaseDate = "" then 3/10
    else
      match parseYear4 m.releaseDate with
      | none => 3/10
      | some y =>
        if pyTruthyI yr.min_year ∧ pyTruthyI yr.max_year then
          if yr.min_year.getD 0 ≤ y ∧ y ≤ yr.max_year.getD 0 then 1
          else
            let distance : ℚ :=
              if y < yr.min_year.getD 0 then ((yr.min_year.getD 0 - y : Int) : ℚ)
              else ((y - yr.max_year.getD 0 : Int) : ℚ)
            max (1 - min (distance * (1/10)) (9/10)) (1/10)
        else if pyTruthyI yr.min_year then
          if y ≥ yr.min_year.getD 0 then 1
          else max (1 - min (((yr.min_year.getD 0 - y : Int) : ℚ) * (1/10)) (9/10)) (1/10)
        else if pyTruthyI yr.max_year then
          if y ≤ yr.max_year.getD 0 then 1
          else max (1 - min (((y - yr.max_year.getD 0 : Int) : ℚ) * (1/10)) (9/10)) (1/10)
        else 1/2

/-- `_calculate_keyword_relevance_score`: title hits weigh 1.0, overview
hits 0.6, normalised by the requested-keyword count, capped at 1. -/
def calculate_keyword_relevance_score (m : RawMovie) (f : ExtractedFilters) : ℚ :=
  if f.keywords = [] then 1/2
  else
    let title := pyLower m.title
    let overview := pyLower m.overview
    let titleMatches := (f.keywords.filter
      (fun kw => strContains title (pyLower kw))).length
    let overviewMatches := (f.keywords.filter (fun kw =>
      !strContains title (pyLower kw) &&
      strContains overview (pyLower kw))).length
    if f.keywords.length = 0 then 1/2
    else
      min (((titleMatches : ℚ) + (overviewMatches : ℚ) * (6/10)) /
        (f.keywords.length : ℚ)) 1

/-- `_calculate_popularity_score`: step function of rating and vote count. -/
def calculate_popularity_score (m : RawMovie) : ℚ :=
  let rating := ratingVal m
  let votes := m.voteCount
  if rating ≥ 7 ∧ votes ≥ 1000 then 1
  else if rating ≥ 13/2 ∧ votes ≥ 500 then 8/10
  else if rating ≥ 6 ∧ votes ≥ 100 then 6/10
  else if votes ≥ 50 then 4/10
  else 2/10

/-- `_calculate_relevance_score`: the 35/25/20/15/5 weighted sum, capped at
1, then a deterministic jitter seeded from `abs(hash(id + title)) % 100`
(even seeds add, odd seeds subtract, up to `(seed/100)·0.15`), then a clamp
to `[0.1, 1.0]`, and only after the clamp a ×0.7 penalty when the raw rating
lies in `(0, 4)`. -/
def calculate_relevance_score (hashScore : String → Nat) (m : RawMovie)
    (f : ExtractedFilters) : ℚ :=
  let score :=
    calculate_genre_match_score m f * (35/100) +
    calculate_rating_score m * (25/100) +
    calculate_year_proximity_score m f * (20/100) +
    calculate_keyword_relevance_score m f * (15/100) +
    calculate_popularity_score m * (5/100)
  let max_score : ℚ := 35/100 + 25/100 + 20/100 + 15/100 + 5/100
  let final0 := if max_score > 0 then min (score / max_score) 1 else 1/2
  let movie_id := m.id.getD ""
  let seed := hashScore (movie_id ++ m.title) % 100
  let variation := (seed : ℚ) / 100 * (15/100)
  let final1 := if seed % 2 = 0 then final0 + variation else final0 - variation
  let final2 := max (1/10) (min final1 1)
  let rating := ratingVal m
  if 0 < rating ∧ rating < 4 then final2 * (7/10) else final2

/-! #### Candidate normalization (`_validate_and_normalize_movie_data`) -/

structure NormMovie where
  id : Int
  title : String
  overview : String
  poster : String
  rating : ℚ
  releaseDate : String
  voteCount : Int
  genreIds : List Int
  deriving DecidableEq, Repr

/-- `_safe_int_conversion` on a string id: digit strings parse, other
strings get a stable hashed identity `abs(hash(s)) % 999999`, empty gives 0. -/
def safeIntOfIdStr (hashId : String → Nat) (s : String) : Int :=
  if pyStrip s = "" then 0
  else if isDigitStr s then strToInt s
  else Int.ofNat (hashId s % 999999)

/-- `_get_validated_poster_url`: the poster field resolved through URL /
TMDB-path / path-like checks, else a placeholder. -/
def get_validated_poster_url (m : RawMovie) : String :=
  match m.poster with
  | some p0 =>
    let p := pyStrip p0
    if p = "" then "https://via.placeholder.com/500x750/2c3e50/ecf0f1?text=Sin+Poster"
    else if strContains p "http" &&
      ("http".toList.isPrefixOf p.toList) then p
    else if ("/".toList.isPrefixOf p.toList) then
      "https://image.tmdb.org/t/p/w500" ++ p
    else if p.length > 3 && (strContains p "/" || strContains p ".") then p
    else "https://via.placeholder.com/500x750/2c3e50/ecf0f1?text=Sin+Poster"
  | none => "https://via.placeholder.com/500x750/2c3e50/ecf0f1?text=Sin+Poster"

/-- `_validate_and_format_date`. -/
def validate_and_format_date (date_str : String) : String :=
  if date_str = "" then ""
  else if date_str.length ≥ 4 then
    match parseYear4 date_str with
    | some y => if 1900 ≤ y ∧ y ≤ 2030 then date_str else ""
    | none => ""
  else ""

/-- `_generate_fallback_overview`, restricted to the int-genre-id records of
this embedding (named-genre dict entries do not occur in them), so the
generic synthesized sentence is produced.  Its exact wording carries no
claim content. -/
def generate_fallback_overview (title : String) : String :=
  "Película titulada " ++ title ++
  ". Información adicional no disponible temporalmente."

/-- `_validate_and_normalize_movie_data` projected on the fields the claims
read.  Every field receives a deterministic fallback. -/
def validate_and_normalize_movie_data (env : SearchEnv) (m : RawMovie) :
    NormMovie :=
  let movie_id0 := m.id.getD ""
  let title0 := if m.title = "" then "Título no disponible" else m.title
  let title := if pyStrip title0 = "" then "Título no disponible" else title0
  let movie_id := if pyStrip movie_id0 = "" then
      "unknown-" ++ toString (env.hashRecord m % 10000)
    else movie_id0
  let overview0 := m.overview
  let overview := if pyStrip overview0 = "" ∨ overview0.length < 10 then
      generate_fallback_overview title
    else overview0
  let rating0 := ratingVal m
  let rating := if rating0 < 0 ∨ rating0 > 10 then 0 else rating0
  { id := safeIntOfIdStr env.hashId movie_id
    title := title
    overview := overview
    poster := get_validated_poster_url m
    rating := rating
    releaseDate := validate_and_format_date m.releaseDate
    voteCount := m.voteCount
    genreIds := m.genreIds }

/-- `_meets_minimum_data_requirements` on a normalized movie: the string
fields must be non-empty after stripping (numeric fields are never `None`
after normalization). -/
def meets_minimum_data_requirements (n : NormMovie) : Bool :=
  pyStrip n.title ≠ "" && pyStrip n.overview ≠ "" &&
  pyStrip n.poster ≠ "" && pyStrip n.releaseDate ≠ ""

/-! #### Primary tier helpers -/

/-- Genre-keyword table of `_calculate_content_genre_match`. -/
def contentGenreKeywords : List (String × List String) := [
  ("35", ["comedia", "comedy", "cómico", "divertido", "gracioso", "humor",
          "risas", "funny", "hilarious"]),
  ("28", ["acción", "action", "lucha", "combate", "batalla", "fight",
          "battle", "guerra", "war"]),
  ("18", ["drama", "dramático", "emotional", "familia", "family", "vida",
          "life"]),
  ("27", ["terror", "horror", "miedo", "scary", "monstruo", "monster",
          "fantasma", "ghost"]),
  ("53", ["thriller", "suspenso", "suspense", "misterio", "mystery",
          "crimen", "crime"]),
  ("10749", ["romance", "romántico", "amor", "love", "romantic", "pareja",
             "couple"]),
  ("878", ["ciencia ficción", "sci-fi", "futuro", "future", "espacio",
           "space", "robot", "alien"]),
  ("12", ["aventura", "adventure", "viaje", "journey", "exploración",
          "exploration"]),
  ("16", ["animación", "animation", "animado", "animated", "dibujos",
          "cartoon"]),
  ("14", ["fantasía", "fantasy", "magia", "magic", "mágico", "magical",
          "fantástico"])]

/-- `_calculate_content_genre_match`: per requested genre, count table
keywords occurring in title+overview, score `min(matches·0.3, 1)`, averaged
over the requested genres and capped at 1. -/
def calculate_content_genre_match (m : RawMovie) (f : ExtractedFilters) : ℚ :=
  if f.genres = [] then 1
  else
    let content := pyLower m.title ++ " " ++ pyLower m.overview
    let total := f.genres.foldl (fun acc g =>
      match contentGenreKeywords.find? (fun p => p.1 == pyStrOfGenre g) with
      | some p =>
        let hits := (p.2.filter (fun kw => strContains content kw)).length
        if hits > 0 then acc + min ((hits : ℚ) * (3/10)) 1 else acc
      | none => acc) 0
    min (total / (f.genres.length : ℚ)) 1

/-- `_validate_movie_results_quality`: drop candidates with missing or
too-short titles; for genre-constrained queries drop content-genre
mismatches (score < 0.3); for keyword queries drop zero-relevance
candidates (score < 0.1). -/
def validate_movie_results_quality (movies : List RawMovie)
    (f : ExtractedFilters) : List RawMovie :=
  movies.filter (fun m =>
    m.title ≠ "" && (pyStrip m.title).length ≥ 2 &&
    (f.genres = [] || decide (calculate_content_genre_match m f ≥ 3/10)) &&
    (f.keywords = [] || decide (calculate_keyword_relevance_score m f ≥ 1/10)))

/-- `_apply_strict_client_side_filtering`: strict genre / year / minimum
rating filters (candidates lacking the needed metadata are dropped when the
corresponding filter is requested). -/
def apply_strict_client_side_filtering (movies : List RawMovie)
    (f : ExtractedFilters) : List RawMovie :=
  movies.filter (fun m =>
    (f.genres = [] ||
      (m.genreIds ≠ [] &&
       (f.genres.map pyStrOfGenre).any
         (fun g => (m.genreIds.map toString).contains g))) &&
    (match f.year_range with
     | none => true
     | some yr =>
       m.releaseDate ≠ "" &&
       (match parseYear4 m.releaseDate with
        | none => false
        | some y =>
          (!pyTruthyI yr.min_year || decide (y ≥ yr.min_year.getD 0)) &&
          (!pyTruthyI yr.max_year || decide (y ≤ yr.max_year.getD 0)))) &&
    (match f.rating_range with
     | none => true
     | some rr =>
       if pyTruthyQ rr.min_rating then
         decide (ratingVal m ≥ rr.min_rating.getD 0)
       else true))

/-- Reasoning text: the assembled Spanish sentences of
`_generate_personalized_reasoning` are abbreviated to their skeleton — no
claim concerns reasoning wording. -/
def generate_personalized_reasoning (m : RawMovie) : String :=
  "Te recomiendo " ++ m.title ++ " según tus criterios de búsqueda."

/-- `_transform_movies_to_recommendations`: strict filtering, normalization
with a minimum-data gate, scoring, a descending stable sort, then a quality
floor (drop scores ≤ 0.3 once more than 5 exist, but never below 3
survivors). -/
def transform_movies_to_recommendations (env : SearchEnv)
    (movies : List RawMovie) (f : ExtractedFilters) : List MovieRec :=
  let filtered := apply_strict_client_side_filtering movies f
  let recs := filtered.filterMap (fun m =>
    let n := validate_and_normalize_movie_data env m
    if meets_minimum_data_requirements n then
      some { movieId := .int n.id
             movieTitle := n.title
             movieOverview := n.overview
             moviePoster := n.poster
             movieRating := n.rating
             movieReleaseDate := n.releaseDate
             relevance_score := calculate_relevance_score env.hashScore m f
             reasoning := generate_personalized_reasoning m
             source := "ai_recommendation" }
    else none)
  let sorted := sortDescBy (fun r => r.relevance_score) recs
  if sorted.length > 5 then
    let quality := sorted.filter (fun r => decide (r.relevance_score > 3/10))
    if quality.length ≥ 3 then quality else sorted
  else sorted

/-! #### Cached-fallback tier -/

/-- Genre-id → cache-name table of `_build_cache_key_strategy`. -/
def cacheGenreNames : List (String × String) := [
  ("28", "action"), ("35", "comedy"), ("18", "drama"), ("27", "horror"),
  ("10749", "romance"), ("878", "scifi"), ("53", "thriller"),
  ("12", "adventure"), ("16", "animation"), ("80", "crime")]

/-- `_build_cache_key_strategy`: genre-specific keys (first two genres),
year-based keys, keyword-hint keys (first two keywords), then the general
fallback keys; duplicates removed keeping first occurrence. -/
def build_cache_key_strategy (f : ExtractedFilters) : List String :=
  let genreKeys := (f.genres.take 2).foldl (fun acc g =>
    match cacheGenreNames.find? (fun p => p.1 == pyStrOfGenre g) with
    | some p => acc ++ ["movies_all_" ++ p.2, "movies_popular_" ++ p.2,
        "movies_top_" ++ p.2]
    | none => acc) []
  let yearKeys :=
    match f.year_range with
    | none => []
    | some yr =>
      if pyTruthyI yr.min_year ∧ yr.min_year.getD 0 ≥ 2020 then
        ["movies_recent", "movies_2020s"]
      else if pyTruthyI yr.min_year ∧ yr.min_year.getD 0 ≥ 2010 then
        ["movies_2010s", "movies_modern"]
      else if pyTruthyI yr.max_year ∧ yr.max_year.getD 0 ≤ 2000 then
        ["movies_classics", "movies_90s"]
      else []
  let keywordKeys := (f.keywords.take 2).foldl (fun acc kw =>
    let kl := pyLower kw
    if strContains kl "marvel" || strContains kl "superhero" then
      acc ++ ["movies_superhero", "movies_marvel"]
    else if strContains kl "disney" || strContains kl "animation" then
      acc ++ ["movies_animation", "movies_family"]
    else if strContains kl "war" || strContains kl "guerra" then
      acc ++ ["movies_war", "movies_history"]
    else acc) []
  dedupFirst (genreKeys ++ yearKeys ++ keywordKeys ++
    ["movies_all_popular", "movies_top_rated", "movies_trending",
     "movies_all_action", "movies_all_comedy", "movies_all_drama",
     "movies_general"])

/-- The cache-key loop of `_get_cached_movies_with_filtering`: accumulate
per-key results, stopping early once `3 × limit` movies are collected. -/
def cacheCollect (fetch : String → List RawMovie) (stopAt : Nat) :
    List String → List RawMovie → List RawMovie
  | [], acc => acc
  | k :: ks, acc =>
    let cm := fetch k
    if cm ≠ [] then
      let acc2 := acc ++ cm
      if acc2.length ≥ stopAt then acc2 else cacheCollect fetch stopAt ks acc2
    else cacheCollect fetch stopAt ks acc

/-- Truthy-field count used by `_deduplicate_movies` to pick the more
complete of two records with the same id (projected on the modelled
fields). -/
def rawCompleteness (m : RawMovie) : Nat :=
  (if m.id.getD "" ≠ "" then 1 else 0) +
  (if m.title ≠ "" then 1 else 0) +
  (if m.overview ≠ "" then 1 else 0) +
  (if pyTruthyQ m.rating then 1 else 0) +
  (if pyTruthyQ m.voteAverage then 1 else 0) +
  (if m.releaseDate ≠ "" then 1 else 0) +
  (if m.genreIds ≠ [] then 1 else 0) +
  (if m.voteCount ≠ 0 then 1 else 0) +
  (if m.poster.getD "" ≠ "" then 1 else 0)

/-- `_deduplicate_movies`: keep one record per id (ids stringified; records
without an id are skipped), preferring the more complete record in place. -/
def dedupMoviesAux (acc : List RawMovie) : List RawMovie → List RawMovie
  | [] => acc
  | m :: ms =>
    let mid := m.id.getD ""
    if mid = "" then dedupMoviesAux acc ms
    else if acc.any (fun x => x.id.getD "" == mid) then
      dedupMoviesAux (acc.map (fun x =>
        if x.id.getD "" == mid ∧ rawCompleteness m > rawCompleteness x
        then m else x)) ms
    else dedupMoviesAux (acc ++ [m]) ms

def deduplicate_movies (movies : List RawMovie) : List RawMovie :=
  dedupMoviesAux [] movies

/-- `_calculate_year_proximity_score_for_cache`: like the primary year
score but with a 5%-per-year penalty capped at 0.8 and floored at 0.2. -/
def cache_year_proximity_score (y : Int) (yr : YearRange) : ℚ :=
  if pyTruthyI yr.min_year ∧ pyTruthyI yr.max_year then
    if yr.min_year.getD 0 ≤ y ∧ y ≤ yr.max_year.getD 0 then 1
    else
      let distance : ℚ :=
        if y < yr.min_year.getD 0 then ((yr.min_year.getD 0 - y : Int) : ℚ)
        else ((y - yr.max_year.getD 0 : Int) : ℚ)
      max (1 - min (distance * (5/100)) (8/10)) (2/10)
  else if pyTruthyI yr.min_year then
    if y ≥ yr.min_year.getD 0 then 1
    else max (1 - min (((yr.min_year.getD 0 - y : Int) : ℚ) * (5/100)) (8/10)) (2/10)
  else if pyTruthyI yr.max_year then
    if y ≤ yr.max_year.getD 0 then 1
    else max (1 - min (((y - yr.max_year.getD 0 : Int) : ℚ) * (5/100)) (8/10)) (2/10)
  else 1/2

/-- Partial-credit cache score of `_apply_enhanced_client_side_filtering`
(missing information contributes 0.1 instead of rejecting). -/
def enhancedCacheScore (m : RawMovie) (f : ExtractedFilters) : ℚ :=
  let genrePart : ℚ × ℚ :=
    if f.genres ≠ [] then
      (if m.genreIds ≠ [] then
        let movieStrs := m.genreIds.map toString
        let hits := (f.genres.map pyStrOfGenre).filter
          (fun g => movieStrs.contains g)
        (if hits.length > 0 then (hits.length : ℚ) / (f.genres.length : ℚ)
         else 1/10, 1)
      else (1/10, 1))
    else (0, 0)
  let yearPart : ℚ × ℚ :=
    match f.year_range with
    | none => (0, 0)
    | some yr =>
      if m.releaseDate ≠ "" then
        match parseYear4 m.releaseDate with
        | some y => (cache_year_proximity_score y yr, 1)
        | none => (1/10, 1)
      else (1/10, 1)
  let kwPart : ℚ × ℚ :=
    if f.keywords ≠ [] then
      let text := pyLower m.title ++ " " ++ pyLower m.overview
      let hits := (f.keywords.filter
        (fun kw => strContains text (pyLower kw))).length
      (if hits > 0 then (hits : ℚ) / (f.keywords.length : ℚ) else 1/10, 1)
    else (0, 0)
  let quality : ℚ :=
    let rating := ratingVal m
    if rating ≥ 7 then 1 else if rating ≥ 6 then 8/10
    else if rating ≥ 5 then 6/10 else 3/10
  let score := genrePart.1 + yearPart.1 + kwPart.1 + quality
  let maxScore := genrePart.2 + yearPart.2 + kwPart.2 + 1
  if maxScore > 0 then score / maxScore else 1/2

/-- `_apply_enhanced_client_side_filtering`: keep movies whose cache score
reaches 0.2, tagged with the score, sorted by it descending.  (In the
source the score is written into the shared dict; the embedding carries it
as a pair.) -/
def apply_enhanced_client_side_filtering (movies : List RawMovie)
    (f : ExtractedFilters) : List (RawMovie × ℚ) :=
  sortDescBy (fun p => p.2)
    (movies.filterMap (fun m =>
      let s := enhancedCacheScore m f
      if s ≥ 2/10 then some (m, s) else none))

/-- `_apply_relaxed_filtering` over the deduplicated movies, which carry a
cache score exactly when the enhanced filter admitted them (dict mutation in
the source): rating-sorted, top `2 × target`, then the genre criterion alone
when it still leaves `target` movies. -/
def apply_relaxed_filtering (annotated : List (RawMovie × Option ℚ))
    (f : ExtractedFilters) (target : Nat) : List (RawMovie × Option ℚ) :=
  let byRating := (sortDescBy (fun p => ratingVal p.1) annotated).take (target * 2)
  let result :=
    if f.genres ≠ [] then
      let genreFiltered := byRating.filter (fun p =>
        p.1.genreIds ≠ [] &&
        (f.genres.map pyStrOfGenre).any
          (fun g => (p.1.genreIds.map toString).contains g))
      if genreFiltered.length ≥ target then genreFiltered else byRating
    else byRating
  result.take (target * 2)

/-- `_transform_cached_movies_to_recommendations`: normalize with the
minimum-data gate, score with a 5% cache penalty, blend with the cache
score when present, sort descending.  Source/reasoning are then restamped
by the caller. -/
def transform_cached_movies_to_recommendations (env : SearchEnv)
    (movies : List (RawMovie × Option ℚ)) (f : ExtractedFilters) :
    List MovieRec :=
  let recs := movies.filterMap (fun mc =>
    let n := validate_and_normalize_movie_data env mc.1
    if meets_minimum_data_requirements n then
      let base := calculate_relevance_score env.hashScore mc.1 f
      let cached0 := base * (95/100)
      let cached := match mc.2 with
        | some c => (cached0 + c) / 2
        | none => cached0
      some { movieId := .int n.id
             movieTitle := n.title
             movieOverview := n.overview
             moviePoster := n.poster
             movieRating := n.rating
             movieReleaseDate := n.releaseDate
             relevance_score := cached
             reasoning := "Te recomiendo " ++ n.title ++
               " según tus criterios de búsqueda."
             source := "cached_fallback" }
    else none)
  sortDescBy (fun r => r.relevance_score) recs

/-- `_get_cached_movies_with_filtering`: prioritized cache keys, early-stop
collection at `3 × limit`, dedupe, enhanced filtering (relaxed when it
leaves fewer than `limit` of more than `limit` movies), transformation of
the first `limit`, and the cached-fallback restamp of source and
reasoning. -/
def get_cached_movies_with_filtering (env : SearchEnv)
    (f : ExtractedFilters) (limit : Nat) : List MovieRec :=
  let keys := build_cache_key_strategy f
  let allMovies := cacheCollect env.cacheFetch (limit * 3) keys []
  if allMovies = [] then []
  else
    let unique := deduplicate_movies allMovies
    let scored := apply_enhanced_client_side_filtering unique f
    let chosen : List (RawMovie × Option ℚ) :=
      if scored.length < limit ∧ unique.length > limit then
        apply_relaxed_filtering
          (unique.map (fun m =>
            (m, (scored.find? (fun p => p.1 == m)).map (fun p => p.2))))
          f limit
      else scored.map (fun p => (p.1, some p.2))
    let recs := transform_cached_movies_to_recommendations env
      (chosen.take limit) f
    recs.map (fun r =>
      { r with
        source := "cached_fallback"
        reasoning := r.reasoning ++
          " (Recomendación desde caché local debido a problemas de conectividad)" })

/-! #### Curated-defaults tier (`_get_smart_default_recommendations_with_scoring`) -/

/-- The genre-specific curated catalog (genre dict entries reduced to their
ids). -/
def curatedComedy : List RawMovie := [
  { id := some "comedy-es-1", title := "Ocho Apellidos Vascos",
    overview := "Un sevillano se hace pasar por vasco para conquistar a una chica de Euskadi. La comedia española más taquillera de la historia.",
    voteAverage := some (64/10), releaseDate := "2014-03-14",
    poster := some "https://image.tmdb.org/t/p/w500/ocho_apellidos_vascos.jpg",
    genreIds := [35, 10749] },
  { id := some "comedy-es-2", title := "Ocho Apellidos Catalanes",
    overview := "Secuela de Ocho Apellidos Vascos. Koldo y Amaia se van a casar, pero antes deben conocer a los padres de ella en Cataluña.",
    voteAverage := some (53/10), releaseDate := "2015-11-20",
    poster := some "https://image.tmdb.org/t/p/w500/ocho_apellidos_catalanes.jpg",
    genreIds := [35, 10749] },
  { id := some "comedy-es-3", title := "El Mundo es Suyo",
    overview := "Dos raperos de Sevilla intentan triunfar en el mundo de la música con resultados hilarantes.",
    voteAverage := some (61/10), releaseDate := "2018-06-22",
    poster := some "https://image.tmdb.org/t/p/w500/el_mundo_es_suyo.jpg",
    genreIds := [35, 10402] },
  { id := some "comedy-es-4", title := "Spanish Movie",
    overview := "Una parodia de las películas españolas más famosas, con humor absurdo y referencias al cine nacional.",
    voteAverage := some (31/10), releaseDate := "2009-08-28",
    poster := some "https://image.tmdb.org/t/p/w500/spanish_movie.jpg",
    genreIds := [35] },
  { id := some "comedy-es-5", title := "Torrente 4: Lethal Crisis",
    overview := "El policía más gamberro de España vuelve con más acción y humor en esta cuarta entrega de la saga.",
    voteAverage := some (54/10), releaseDate := "2011-03-11",
    poster := some "https://image.tmdb.org/t/p/w500/torrente_4.jpg",
    genreIds := [35, 28] },
  { id := some "comedy-es-6", title := "Perdiendo el Norte",
    overview := "Dos amigos madrileños emigran a Alemania en busca de trabajo, pero las cosas no salen como esperaban.",
    voteAverage := some (62/10), releaseDate := "2015-03-06",
    poster := some "https://image.tmdb.org/t/p/w500/perdiendo_el_norte.jpg",
    genreIds := [35, 18] },
  { id := some "comedy-es-7", title := "Superlópez",
    overview := "Adaptación del famoso cómic español sobre un superhéroe muy particular y sus aventuras cómicas.",
    voteAverage := some (54/10), releaseDate := "2018-11-23",
    poster := some "https://image.tmdb.org/t/p/w500/superlopez.jpg",
    genreIds := [35, 28] },
  { id := some "comedy-es-8", title := "Padre no hay más que uno",
    overview := "Un padre de familia numerosa debe cuidar solo de sus hijos durante las vacaciones con resultados cómicos.",
    voteAverage := some (61/10), releaseDate := "2019-07-26",
    poster := some "https://image.tmdb.org/t/p/w500/padre_no_hay_mas_que_uno.jpg",
    genreIds := [35, 10751] },
  { id := some "comedy-int-1", title := "El Gran Hotel Budapest",
    overview := "Las aventuras de Gustave H, un legendario conserje de un famoso hotel europeo, y Zero Moustafa, el botones que se convierte en su protegido.",
    voteAverage := some (81/10), releaseDate := "2014-03-28",
    poster := some "https://image.tmdb.org/t/p/w500/grand_budapest_hotel.jpg",
    genreIds := [35, 18] },
  { id := some "comedy-int-2", title := "El Libro de la Vida",
    overview := "Una aventura animada sobre el Día de los Muertos y el poder del amor verdadero.",
    voteAverage := some (73/10), releaseDate := "2014-10-17",
    poster := some "https://image.tmdb.org/t/p/w500/book_of_life.jpg",
    genreIds := [16, 35] }]

def curatedAction : List RawMovie := [
  { id := some "action-1", title := "Mad Max: Fury Road",
    overview := "En un mundo post-apocalíptico, Max se une a Furiosa para escapar de un tirano.",
    voteAverage := some (81/10), releaseDate := "2015-05-15",
    poster := some "/action1.jpg", genreIds := [28, 12] }]

def curatedDrama : List RawMovie := [
  { id := some "drama-1", title := "El Secreto de Sus Ojos",
    overview := "Un investigador judicial jubilado decide escribir una novela sobre un caso que no pudo resolver.",
    voteAverage := some (82/10), releaseDate := "2009-08-13",
    poster := some "/drama1.jpg", genreIds := [18, 53] }]

def genreSpecificMovies (genreIdStr : String) : List RawMovie :=
  if genreIdStr = "35" then curatedComedy
  else if genreIdStr = "28" then curatedAction
  else if genreIdStr = "18" then curatedDrama
  else []

def curatedGeneral : List RawMovie := [
  { id := some "general-1", title := "Coco",
    overview := "Un niño mexicano viaja al mundo de los muertos para descubrir su historia familiar.",
    voteAverage := some (84/10), releaseDate := "2017-11-22",
    poster := some "/general1.jpg", genreIds := [16, 10751] },
  { id := some "general-2", title := "El Laberinto del Fauno",
    overview := "Una niña descubre un mundo mágico durante la Guerra Civil Española.",
    voteAverage := some (82/10), releaseDate := "2006-10-11",
    poster := some "/general2.jpg", genreIds := [14, 18] }]

/-- `_get_smart_default_recommendations_with_scoring`: curated entries
matching any requested genre (else the generic pair), first `limit`,
normalized, scored and sorted; source is stamped `"smart_default"`.  This
tier applies no minimum-data gate and no exclude-list filter. -/
def get_smart_default_recommendations_with_scoring (env : SearchEnv)
    (f : ExtractedFilters) (limit : Nat) : List MovieRec :=
  let selected0 := f.genres.foldl
    (fun acc g => acc ++ genreSpecificMovies (pyStrOfGenre g)) []
  let selected := if selected0 = [] then curatedGeneral else selected0
  let recs := (selected.take limit).map (fun m =>
    let n := validate_and_normalize_movie_data env m
    { movieId := .int n.id
      movieTitle := n.title
      movieOverview := n.overview
      moviePoster := n.poster
      movieRating := n.rating
      movieReleaseDate := n.releaseDate
      relevance_score := calculate_relevance_score env.hashScore m f
      reasoning := "Te recomiendo " ++ n.title ++
        " según tus criterios de búsqueda."
      source := "smart_default" })
  sortDescBy (fun r => r.relevance_score) recs

/-- `_get_emergency_fallback_recommendation`: the single synthetic entry,
score `0`, source `"emergency_fallback"` (its movie dict is not
normalized). -/
def emergency_fallback_recommendation : List MovieRec := [
  { movieId := .str "emergency-1"
    movieTitle := "Servicio Temporalmente No Disponible"
    movieOverview := "Lo sentimos, el servicio de recomendaciones no está disponible en este momento. Por favor, inténtalo de nuevo más tarde."
    moviePoster := ""
    movieRating := 0
    movieReleaseDate := "2024-01-01"
    relevance_score := 0
    reasoning := "El servicio de películas está temporalmente no disponible. Nuestro equipo está trabajando para restaurar el servicio lo antes posible."
    source := "emergency_fallback" }]

/-! #### Remote payload (`_transform_filters_to_lambda_payload`) -/

structure LambdaPayload where
  fieldName : String
  mediaType : String
  genreIds : List Int
  limit : Nat
  excludeIds : List String
  releaseDateGte : Option String
  releaseDateLte : Option String
  voteAverageGte : Option ℚ
  keywords : List String
  deriving DecidableEq, Repr

/-- `_transform_filters_to_lambda_payload`: digit-string and int genres
become TMDB int ids, the limit is over-fetched `2×`, the exclude list is
passed through unchanged, year and minimum-rating filters are attached when
truthy, and at most 3 keywords travel along. -/
def transform_filters_to_lambda_payload (f : ExtractedFilters) (limit : Nat) :
    LambdaPayload :=
  { fieldName := "getFilteredContent"
    mediaType := "MOVIE"
    genreIds := f.genres.filterMap (fun g =>
      match g with
      | .str s => if isDigitStr s then some (strToInt s) else none
      | .int n => some n)
    limit := limit * 2
    excludeIds := f.exclude_ids
    releaseDateGte :=
      match f.year_range with
      | some yr =>
        if pyTruthyI yr.min_year then
          some (toString (yr.min_year.getD 0) ++ "-01-01")
        else none
      | none => none
    releaseDateLte :=
      match f.year_range with
      | some yr =>
        if pyTruthyI yr.max_year then
          some (toString (yr.max_year.getD 0) ++ "-12-31")
        else none
      | none => none
    voteAverageGte :=
      match f.rating_range with
      | some rr => if pyTruthyQ rr.min_rating then rr.min_rating else none
      | none => none
    keywords := f.keywords.take 3 }

/-! #### The cascade (`search_movies_with_filters`) -/

/-- `MovieSearchService.search_movies_with_filters`: primary remote search
(retry, quality gate requiring 3 validated survivors, transformation,
first `limit`), then the cached fallback, then the curated defaults (whose
body can only fail by raising — `tertiaryRaises`), then the emergency
entry.  Every tier failure advances the cascade. -/
def search_movies_with_filters (env : SearchEnv) (f : ExtractedFilters)
    (limit : Nat) : List MovieRec :=
  let primary : Option (List MovieRec) :=
    match retryLoop env.lambdaAttempts with
    | none => none
    | some moviesData =>
      if moviesData ≠ [] then
        let valid := validate_movie_results_quality moviesData f
        if valid.length ≥ 3 then
          let recs := transform_movies_to_recommendations env valid f
          if recs ≠ [] then some (recs.take limit) else none
        else none
      else none
  match primary with
  | some r => r
  | none =>
    let cached := get_cached_movies_with_filtering env f limit
    if cached ≠ [] then cached
    else
      let defaults :=
        if env.tertiaryRaises then []
        else get_smart_default_recommendations_with_scoring env f limit
      if defaults ≠ [] then defaults
      else emergency_fallback_recommendation

/-! ### Concrete instances used by counterexamples and witnesses -/

/-- A low-rated candidate far from every requested filter (counterexample
input for the score lower bound). -/
def c4Movie : RawMovie :=
  { id := some "m1", title := "ZZ", overview := "",
    voteAverage := some (1/10), releaseDate := "1990-01-01",
    genreIds := [18], voteCount := 0 }

def c4Filters : ExtractedFilters :=
  { genres := [.str "35"],
    year_range := some { min_year := some 2020, max_year := some 2020 },
    keywords := ["zzz"], intent := "recommendation", confidence := 9/10 }


/-- Environment in which every tier fails: the remote lambda raises on all
three attempts, every cache key is empty, and the curated-defaults tier body
raises. -/
def failEnv : SearchEnv :=
  { lambdaAttempts := [none, none, none]
    cacheFetch := fun _ => []
    tertiaryRaises := true
    hashScore := fun _ => 0
    hashId := fun _ => 0
    hashRecord := fun _ => 0 }

def c3Filters : ExtractedFilters :=
  { genres := [.str "28"], confidence := 9/10 }

/-- A cached movie whose id is on the caller's exclude list. -/
def c2Movie : RawMovie :=
  { id := some "123", title := "Pelicula Uno",
    overview := "Una historia de prueba suficientemente larga.",
    voteAverage := some 8, releaseDate := "2014-03-14",
    genreIds := [], voteCount := 1500, poster := none }

/-- Environment in which the primary tier raises and the popularity cache
serves `c2Movie`. -/
def c2Env : SearchEnv :=
  { lambdaAttempts := [none, none, none]
    cacheFetch := fun k => if k = "movies_all_popular" then [c2Movie] else []
    tertiaryRaises := false
    hashScore := fun _ => 0
    hashId := fun _ => 0
    hashRecord := fun _ => 0 }

def c2Filters : ExtractedFilters :=
  { intent := "recommendation", confidence := 9/10, exclude_ids := ["123"] }


/-- The valid fragment nested inside `c5TopDoc`: genre 28, intent
recommendation, confidence 0.9, plus an extra key the validators ignore.
On the serialized payload, the first regex of
`_extract_json_from_mixed_content` (one nesting level) skips the two-level
top document and matches exactly this fragment, which `json.loads`
accepts. -/
def c5Fragment : Json := .obj [
  ("genres", .arr [.str "28"]),
  ("intent", .str "recommendation"),
  ("confidence", .float (9/10)),
  ("f", .obj [("g", .int 1)])]

/-- An invalid payload (confidence 1.5, outside `[0, 1]`) that nests the
valid fragment `c5Fragment` under key `d`. -/
def c5TopDoc : Json := .obj [
  ("genres", .arr []),
  ("intent", .str "recommendation"),
  ("confidence", .float (3/2)),
  ("d", c5Fragment)]

/-- The filters the fragment validates to (one genre signal, so the
ambiguity calibration leaves it unchanged). -/
def c5FragFilters : ExtractedFilters :=
  { genres := [.str "28"],
    year_range := none,
    rating_range := none,
    keywords := [],
    intent := "recommendation",
    confidence := 9/10,
    exclude_ids := [] }

/-- Concrete well-formed AI payload for the round-trip counterexample:
one genre, a narrow year range, intent `recommendation`, confidence 0.5. -/
def c6Payload : Json := .obj [
  ("genres", .arr [.str "28"]),
  ("year_range", .obj [("min", .int 1990), ("max", .int 1999)]),
  ("keywords", .arr []),
  ("intent", .str "recommendation"),
  ("confidence", .float (1/2))]

/-- First-pass result on `c6Payload`: two strong signals (genre and year)
trigger the ≥2-filter boost `min(conf·0.1, 0.1)`, lifting 0.5 to 0.55. -/
def c6F1 : ExtractedFilters :=
  { genres := [.str "28"],
    year_range := some { min_year := some 1990, max_year := some 1999 },
    rating_range := none,
    keywords := [],
    intent := "recommendation",
    confidence := 11/20,
    exclude_ids := [] }

/-- Second-pass result: re-validating `c6F1` re-applies the boost,
lifting 0.55 to 0.605. -/
def c6F2 : ExtractedFilters :=
  { c6F1 with confidence := 121/200 }

/-- Payload whose `genres` entries are all JSON strings — the form the AI
prompt itself mandates ("lista de IDs de género como strings"). -/
def payloadGenresAllStrings (j : Json) : Prop :=
  match j with
  | .obj fields =>
    match jsonGet fields "genres" with
    | some (.arr xs) => ∀ x ∈ xs, ∃ s, x = Json.str s
    | _ => True
  | _ => True

/-- Invariants satisfied by every filters value produced by
`_parse_and_validate_json_response` on a string-genre payload; exactly what
a second validation pass needs in order to reproduce the value. -/
structure ValidOutput (f : ExtractedFilters) : Prop where
  genres_digit : ∀ g ∈ f.genres, ∃ s, g = GenreVal.str s ∧
    isDigitStr s = true ∧ 1 ≤ strToInt s ∧ strToInt s ≤ 99999
  year_min : ∀ yr, f.year_range = some yr →
    yr.min_year = none ∨ ∃ m, yr.min_year = some m ∧ 1900 ≤ m ∧ m ≤ 2030
  year_max : ∀ yr, f.year_range = some yr →
    yr.max_year = none ∨ ∃ M, yr.max_year = some M ∧ 1900 ≤ M ∧ M ≤ 2030
  year_not_empty : ∀ yr, f.year_range = some yr →
    yr.min_year.isSome = true ∨ yr.max_year.isSome = true
  year_ordered : ∀ yr, f.year_range = some yr →
    ∀ m M, yr.min_year = some m → yr.max_year = some M → m ≤ M
  rating_min : ∀ rr, f.rating_range = some rr →
    rr.min_rating = none ∨ ∃ r, rr.min_rating = some r ∧ 0 ≤ r ∧ r ≤ 10
  rating_max : ∀ rr, f.rating_range = some rr →
    rr.max_rating = none ∨ ∃ r, rr.max_rating = some r ∧ 0 ≤ r ∧ r ≤ 10
  rating_not_empty : ∀ rr, f.rating_range = some rr →
    rr.min_rating.isSome = true ∨ rr.max_rating.isSome = true
  rating_no_swap : ∀ rr, f.rating_range = some rr →
    ¬ (pyTruthyQ rr.min_rating = true ∧ pyTruthyQ rr.max_rating = true ∧
       rr.min_rating.getD 0 > rr.max_rating.getD 0)
  keywords_clean : ∀ kw ∈ f.keywords,
    pyStrip kw = kw ∧ 2 ≤ kw.length ∧ kw.length ≤ 50
  keywords_le : f.keywords.length ≤ 10
  intent_valid : f.intent = "recommendation" ∨ f.intent = "information" ∨
    f.intent = "clarification"
  conf_lo : 0 ≤ f.confidence
  conf_hi : f.confidence ≤ 1
  rec_conf : f.intent = "recommendation" → 1/2 ≤ f.confidence
  rec_count : f.intent = "recommendation" → 1 ≤ filterCount f
  count0_clar : filterCount f = 0 → f.intent = "clarification"
  exclude_nil : f.exclude_ids = []


/-! ## Theorems -/

/-! ### Sorting lemmas for the stable descending sort -/

theorem mem_insertDescBy {α : Type} (key : α → ℚ) (x z : α) (l : List α) :
    z ∈ insertDescBy key x l ↔ z = x ∨ z ∈ l := by
  induction l with
  | nil => simp [insertDescBy]
  | cons y ys ih =>
    by_cases h : key x < key y
    · simp only [insertDescBy, if_pos h, List.mem_cons, ih]
      tauto
    · simp only [insertDescBy, if_neg h, List.mem_cons]

theorem pairwise_insertDescBy {α : Type} (key : α → ℚ) (x : α) (l : List α)
    (h : l.Pairwise (fun a b => key b ≤ key a)) :
    (insertDescBy key x l).Pairwise (fun a b => key b ≤ key a) := by
  induction l with
  | nil => simp [insertDescBy]
  | cons y ys ih =>
    rw [List.pairwise_cons] at h
    by_cases hxy : key x < key y
    · rw [insertDescBy]
      simp only [if_pos hxy]
      rw [List.pairwise_cons]
      constructor
      · intro z hz
        rcases (mem_insertDescBy key x z ys).mp hz with hz | hz
        · exact hz ▸ le_of_lt hxy
        · exact h.1 z hz
      · exact ih h.2
    · rw [insertDescBy]
      simp only [if_neg hxy]
      rw [List.pairwise_cons]
      constructor
      · intro z hz
        rcases List.mem_cons.mp hz with hz | hz
        · exact hz ▸ le_of_not_lt hxy
        · exact le_trans (h.1 z hz) (le_of_not_lt hxy)
      · exact List.pairwise_cons.mpr h

theorem pairwise_sortDescBy {α : Type} (key : α → ℚ) (l : List α) :
    (sortDescBy key l).Pairwise (fun a b => key b ≤ key a) := by
  induction l with
  | nil => simp [sortDescBy]
  | cons x xs ih => exact pairwise_insertDescBy key x _ ih

theorem length_insertDescBy {α : Type} (key : α → ℚ) (x : α) (l : List α) :
    (insertDescBy key x l).length = l.length + 1 := by
  induction l with
  | nil => simp [insertDescBy]
  | cons y ys ih =>
    by_cases h : key x < key y
    · simp [insertDescBy, h, ih]
    · simp [insertDescBy, h]

theorem length_sortDescBy {α : Type} (key : α → ℚ) (l : List α) :
    (sortDescBy key l).length = l.length := by
  induction l with
  | nil => rfl
  | cons x xs ih => simp [sortDescBy, length_insertDescBy, ih]

/-- Pairwise score order survives mapping with a score-preserving
function. -/
theorem pairwise_map_key {α β : Type} (kα : α → ℚ) (kβ : β → ℚ) (g : α → β)
    (hg : ∀ a, kβ (g a) = kα a) (l : List α)
    (h : l.Pairwise (fun a b => kα b ≤ kα a)) :
    (l.map g).Pairwise (fun a b => kβ b ≤ kβ a) := by
  rw [List.pairwise_map]
  exact h.imp (fun hab => by simp only [hg]; exact hab)

/-! ### C9 — ambiguity classification -/

/-- C9: whenever the filters carry at least one genre, a year range, a
rating range, or at least two keywords, `detect_ambiguous_query` reports
ambiguous exactly when confidence < 0.2; in particular confidence < 0.2 is
always classified ambiguous (with or without specific filters), and
confidence ≥ 0.5 with at least one genre is classified not ambiguous. -/
theorem C9_ambiguity_specific_filter_override :
    (∀ (f : ExtractedFilters) (q : String),
      (f.genres.length > 0 ∨ f.year_range.isSome = true ∨
       f.rating_range.isSome = true ∨ f.keywords.length ≥ 2) →
      (detect_ambiguous_query f q = true ↔ f.confidence < 2/10)) ∧
    (∀ (f : ExtractedFilters) (q : String), f.confidence < 2/10 →
      detect_ambiguous_query f q = true) ∧
    (∀ (f : ExtractedFilters) (q : String), 1/2 ≤ f.confidence →
      f.genres ≠ [] → detect_ambiguous_query f q = false) := by
  refine ⟨?_, ?_, ?_⟩
  · intro f q h
    have hs : (f.genres.length > 0 || f.year_range.isSome ||
        f.rating_range.isSome || decide (f.keywords.length ≥ 2)) = true := by
      simp only [Bool.or_eq_true, decide_eq_true_eq]
      rcases h with h | h | h | h
      · exact Or.inl (Or.inl (Or.inl (by simpa using h)))
      · exact Or.inl (Or.inl (Or.inr h))
      · exact Or.inl (Or.inr h)
      · exact Or.inr h
    simp only [detect_ambiguous_query, hs, if_true, decide_eq_true_eq]
  · intro f q h
    by_cases hs : (f.genres.length > 0 || f.year_range.isSome ||
        f.rating_range.isSome || decide (f.keywords.length ≥ 2)) = true
    · simp only [detect_ambiguous_query, hs, if_true, decide_eq_true_eq]
      exact h
    · have hc : f.confidence < 1/2 := lt_trans h (by norm_num)
      simp only [detect_ambiguous_query, hs, if_false, Bool.false_eq_true,
        if_pos hc]
  · intro f q h hg
    have hs : (f.genres.length > 0 || f.year_range.isSome ||
        f.rating_range.isSome || decide (f.keywords.length ≥ 2)) = true := by
      simp only [Bool.or_eq_true, decide_eq_true_eq]
      exact Or.inl (Or.inl (Or.inl (by simpa using List.length_pos.mpr hg)))
    simp only [detect_ambiguous_query, hs, if_true, decide_eq_true_eq,
      decide_eq_false_iff_not, not_lt]
    exact le_trans (by norm_num) h

/-- Witness for C9: a one-genre filter at confidence 0.6 evaluated through
the theorem. -/
theorem C9_ambiguity_witness :
    ({ genres := [GenreVal.str "28"], confidence := 6/10 } :
      ExtractedFilters).genres.length > 0 ∧
    detect_ambiguous_query
      { genres := [GenreVal.str "28"], confidence := 6/10 } "accion" = false :=
  ⟨by simp,
   C9_ambiguity_specific_filter_override.2.2
     { genres := [GenreVal.str "28"], confidence := 6/10 } "accion"
     (by norm_num) (by simp)⟩

/-! ### C7 — year-range ordering -/

theorem validYearField_bounds (o : Option Json) (n : Int)
    (h : validYearField o = some n) : 1900 ≤ n ∧ n ≤ 2030 := by
  rcases o with _ | j
  · simp [validYearField] at h
  · simp only [validYearField] at h
    rcases hz : jintZ j with _ | m
    · rw [hz] at h; simp at h
    · rw [hz] at h
      by_cases hr : 1900 ≤ m ∧ m ≤ 2030
      · simp only [if_pos hr, Option.some.injEq] at h
        exact h ▸ hr
      · simp [if_neg hr] at h

theorem eav_year_range_ordered (yd : Option Json) (yr : YearRange)
    (h : extract_and_validate_year_range yd = some yr) :
    ∀ m M, yr.min_year = some m → yr.max_year = some M → m ≤ M := by
  intro m M hm hM
  rcases yd with _ | (_ | b | n | q | s | xs | fields)
  · simp [extract_and_validate_year_range] at h
  · simp [extract_and_validate_year_range] at h
  · simp [extract_and_validate_year_range] at h
  · simp [extract_and_validate_year_range] at h
  · simp [extract_and_validate_year_range] at h
  · simp [extract_and_validate_year_range] at h
  · simp [extract_and_validate_year_range] at h
  · simp only [extract_and_validate_year_range] at h
    by_cases he : fields.isEmpty
    · simp [he] at h
    · simp only [he, Bool.false_eq_true, if_false] at h
      set m0 := validYearField (jsonGet fields "min") with hm0
      set M0 := validYearField (jsonGet fields "max") with hM0
      by_cases hswap : pyTruthyI m0 ∧ pyTruthyI M0 ∧ m0.getD 0 > M0.getD 0
      · simp only [if_pos hswap] at h
        by_cases hs : M0.isSome ∨ m0.isSome
        · simp only [if_pos hs, Option.some.injEq] at h
          subst h
          simp only at hm hM
          have h1 := validYearField_bounds _ _ (hm0 ▸ hM ▸ rfl :
            validYearField (jsonGet fields "min") = some M)
          rcases hswap with ⟨_, _, hgt⟩
          rw [hm, hM] at hgt
          simp only [Option.getD_some] at hgt
          exact le_of_lt hgt
        · simp [if_neg hs] at h
      · simp only [if_neg hswap] at h
        by_cases hs : m0.isSome ∨ M0.isSome
        · simp only [if_pos hs, Option.some.injEq] at h
          subst h
          simp only at hm hM
          push_neg at hswap
          have hmt : pyTruthyI m0 = true := by
            rw [hm]
            simp only [pyTruthyI]
            have := validYearField_bounds _ _ (hm0 ▸ hm ▸ rfl :
              validYearField (jsonGet fields "min") = some m)
            simp only [decide_eq_true_eq]
            omega
          have hMt : pyTruthyI M0 = true := by
            rw [hM]
            simp only [pyTruthyI]
            have := validYearField_bounds _ _ (hM0 ▸ hM ▸ rfl :
              validYearField (jsonGet fields "max") = some M)
            simp only [decide_eq_true_eq]
            omega
          have := hswap hmt hMt
          rw [hm, hM] at this
          simp only [Option.getD_some] at this
          omega
        · simp [if_neg hs] at h

theorem year_patterns_ordered (cy : Int) (q : String) (yr : YearRange)
    (h : extract_year_range_patterns cy q = some yr) :
    ∀ m M, yr.min_year = some m → yr.max_year = some M → m ≤ M := by
  intro m M hm hM
  simp only [extract_year_range_patterns] at h
  rcases hf : (decadePatterns cy).find?
      (fun p => p.1.any (fun alt => strContains q alt)) with _ | p
  · rw [hf] at h
    rcases hb : findBareYear q with _ | y
    · rw [hb] at h
      simp at h
    · rw [hb] at h
      simp only [Option.map_some', Option.some.injEq] at h
      rw [← h] at hm hM
      simp only [Option.some.injEq] at hm hM
      omega
  · rw [hf] at h
    simp only [Option.some.injEq] at h
    have hmem := List.mem_of_find?_eq_some hf
    subst h
    simp only [decadePatterns, List.mem_cons, List.mem_singleton] at hmem
    rcases hmem with h | h | h | h | h | h | h
    all_goals first
      | (rw [h] at hm hM; simp only [Option.some.injEq] at hm hM; omega)
      | simp at h

/-- C7: every year range produced by AI-payload validation or by the
deterministic pattern extractor satisfies `min_year ≤ max_year` whenever
both bounds are set, and an inverted payload pair such as
`{min: 1999, max: 1990}` is swapped into `(1990, 1999)`, not rejected. -/
theorem C7_year_ranges_min_le_max :
    (∀ (yd : Option Json) (yr : YearRange),
      extract_and_validate_year_range yd = some yr →
      ∀ m M, yr.min_year = some m → yr.max_year = some M → m ≤ M) ∧
    (∀ (cy : Int) (q : String) (yr : YearRange),
      extract_year_range_patterns cy q = some yr →
      ∀ m M, yr.min_year = some m → yr.max_year = some M → m ≤ M) ∧
    extract_and_validate_year_range
      (some (.obj [("min", .int 1999), ("max", .int 1990)])) =
      some { min_year := some 1990, max_year := some 1999 } := by
  refine ⟨eav_year_range_ordered, year_patterns_ordered, ?_⟩
  decide

/-- Witness for C7: the inverted concrete payload pushed through the first
conjunct of the theorem. -/
theorem C7_year_ranges_witness :
    extract_and_validate_year_range
      (some (.obj [("min", .int 1999), ("max", .int 1990)])) =
      some { min_year := some 1990, max_year := some 1999 } ∧
    (1990 : Int) ≤ 1999 :=
  ⟨C7_year_ranges_min_le_max.2.2,
   C7_year_ranges_min_le_max.1 _ _ C7_year_ranges_min_le_max.2.2 1990 1999
     rfl rfl⟩

/-! ### C8 — rating bounds -/

theorem validRatingField_bounds (o : Option Json) (r : ℚ)
    (h : validRatingField o = some r) : 0 ≤ r ∧ r ≤ 10 := by
  rcases o with _ | j
  · simp [validRatingField] at h
  · simp only [validRatingField] at h
    rcases hz : jnumQ j with _ | v
    · rw [hz] at h; simp at h
    · rw [hz] at h
      by_cases hr : 0 ≤ v ∧ v ≤ 10
      · simp only [if_pos hr, Option.some.injEq] at h
        exact h ▸ hr
      · simp [if_neg hr] at h

theorem eav_rating_range_bounds (fields : List (String × Json))
    (rr : RatingRange)
    (h : extract_and_validate_rating_range fields = some rr) :
    (∀ r, rr.min_rating = some r → 0 ≤ r ∧ r ≤ 10) ∧
    (∀ r, rr.max_rating = some r → 0 ≤ r ∧ r ≤ 10) := by
  simp only [extract_and_validate_rating_range] at h
  set rm0 := validRatingField (jsonGet fields "rating_min") with hrm
  set rM0 := validRatingField (jsonGet fields "rating_max") with hrM
  have hrmB : ∀ r, rm0 = some r → 0 ≤ r ∧ r ≤ 10 := by
    intro r hr
    exact validRatingField_bounds _ _ (hrm ▸ hr)
  have hrMB : ∀ r, rM0 = some r → 0 ≤ r ∧ r ≤ 10 := by
    intro r hr
    exact validRatingField_bounds _ _ (hrM ▸ hr)
  by_cases hswap : pyTruthyQ rm0 ∧ pyTruthyQ rM0 ∧ rm0.getD 0 > rM0.getD 0
  · simp only [if_pos hswap] at h
    by_cases hs : rM0.isSome ∨ rm0.isSome
    · simp only [if_pos hs, Option.some.injEq] at h
      subst h
      exact ⟨hrMB, hrmB⟩
    · simp [if_neg hs] at h
  · simp only [if_neg hswap] at h
    by_cases hs : rm0.isSome ∨ rM0.isSome
    · simp only [if_pos hs, Option.some.injEq] at h
      subst h
      exact ⟨hrmB, hrMB⟩
    · simp [if_neg hs] at h

theorem rating_patterns_bounds (q : String) (r : ℚ)
    (h : extract_rating_patterns q = some r) : 0 ≤ r ∧ r ≤ 10 := by
  simp only [extract_rating_patterns] at h
  rcases h1 : findExplicitRating q with _ | v
  · rw [h1] at h
    rcases h2 : findRatingDe q with _ | w
    · rw [h2] at h
      rcases h3 : qualityPatterns.find?
          (fun p => p.1.any (fun alt => strContains q alt)) with _ | p
      · rw [h3] at h; simp at h
      · rw [h3] at h
        simp only [Option.map_some', Option.some.injEq] at h
        have hmem := List.mem_of_find?_eq_some h3
        subst h
        simp only [qualityPatterns, List.mem_cons, List.mem_singleton] at hmem
        rcases hmem with h | h | h | h
        all_goals first
          | (rw [h]; norm_num)
          | simp at h
    · rw [h2] at h
      simp only [Option.some.injEq] at h
      subst h
      exact ⟨le_min (le_max_right w 0) (by norm_num), min_le_right _ _⟩
  · rw [h1] at h
    simp only [Option.some.injEq] at h
    subst h
    exact ⟨le_min (le_max_right v 0) (by norm_num), min_le_right _ _⟩

/-- C8 counterexample: the query-text rating "15 estrellas" is clamped to
10.0 by `_extract_rating_patterns`, not discarded, refuting the claim that
an out-of-range rating value is always discarded. -/
theorem C8_query_rating_clamped_counterexample :
    extract_rating_patterns "15 estrellas" = some 10 ∧
    extract_rating_patterns "15 estrellas" ≠ none := by
  decide

/-- C8 (amended): every rating bound in a validated rating range and every
pattern-extracted rating lies within `[0, 10]`; an out-of-range rating in an
AI payload is discarded per-field, but an explicit out-of-range rating in
the query text is clamped to the nearest bound
(`min(max(rating, 0), 10)`), not discarded. -/
theorem C8_rating_bounds_discard_vs_clamp :
    (∀ (fields : List (String × Json)) (rr : RatingRange),
      extract_and_validate_rating_range fields = some rr →
      (∀ r, rr.min_rating = some r → 0 ≤ r ∧ r ≤ 10) ∧
      (∀ r, rr.max_rating = some r → 0 ≤ r ∧ r ≤ 10)) ∧
    (∀ (q : String) (r : ℚ), extract_rating_patterns q = some r →
      0 ≤ r ∧ r ≤ 10) ∧
    (∀ (j : Json) (c : ℚ), jnumQ j = some c → (c < 0 ∨ 10 < c) →
      validRatingField (some j) = none) ∧
    (∀ (q : String) (v : ℚ), findExplicitRating q = some v →
      extract_rating_patterns q = some (min (max v 0) 10)) := by
  refine ⟨eav_rating_range_bounds, rating_patterns_bounds, ?_, ?_⟩
  · intro j c hc hout
    simp only [validRatingField, hc]
    have : ¬ (0 ≤ c ∧ c ≤ 10) := by
      rcases hout with h | h
      · exact fun hh => absurd hh.1 (not_le.mpr h)
      · exact fun hh => absurd hh.2 (not_le.mpr h)
    simp [this]
  · intro q v hv
    simp only [extract_rating_patterns, hv]

/-- Witness for C8: the concrete payload value 15.0 discarded, and the
query-text value 15 clamped, via the theorem. -/
theorem C8_rating_bounds_witness :
    jnumQ (.float 15) = some 15 ∧ ((15 : ℚ) < 0 ∨ (10 : ℚ) < 15) ∧
    validRatingField (some (.float 15)) = none ∧
    findExplicitRating "15 estrellas" = some 15 ∧
    extract_rating_patterns "15 estrellas" = some (min (max 15 0) 10) :=
  ⟨rfl, Or.inr (by norm_num),
   C8_rating_bounds_discard_vs_clamp.2.2.1 (.float 15) 15 rfl
     (Or.inr (by norm_num)),
   by decide,
   C8_rating_bounds_discard_vs_clamp.2.2.2 "15 estrellas" 15 (by decide)⟩

/-! ### C4 — relevance score bounds -/

theorem clamp_penalty_bounds (x : ℚ) (p : Prop) [Decidable p] :
    7/100 ≤ (if p then max (1/10) (min x 1) * (7/10)
             else max (1/10) (min x 1)) ∧
    (if p then max (1/10) (min x 1) * (7/10)
     else max (1/10) (min x 1)) ≤ 1 := by
  have h1 : (1:ℚ)/10 ≤ max (1/10) (min x 1) := le_max_left _ _
  have h2 : max (1/10) (min x 1) ≤ 1 :=
    max_le (by norm_num) (min_le_right _ _)
  by_cases hp : p
  · simp only [if_pos hp]
    constructor
    · calc (7:ℚ)/100 = (1/10) * (7/10) := by norm_num
        _ ≤ max (1/10) (min x 1) * (7/10) :=
          mul_le_mul_of_nonneg_right h1 (by norm_num)
    · calc max (1/10) (min x 1) * (7/10) ≤ 1 * (7/10) :=
          mul_le_mul_of_nonneg_right h2 (by norm_num)
        _ ≤ 1 := by norm_num
  · simp only [if_neg hp]
    exact ⟨le_trans (by norm_num) h1, h2⟩

theorem c4_ratingVal : ratingVal c4Movie = 1/10 := by
  norm_num [ratingVal, c4Movie, Option.orElse]

theorem c4_genre_score : calculate_genre_match_score c4Movie c4Filters = 0 := by
  have ht : toString (18:Int) = "18" := by decide
  norm_num [calculate_genre_match_score, c4Movie, c4Filters, dedupFirst,
    dedupFirstAux, pyStrOfGenre, ht]
  decide

theorem c4_rating_score : calculate_rating_score c4Movie = 1/125 := by
  norm_num [calculate_rating_score, ratingVal, c4Movie, Option.orElse]

theorem c4_year_score :
    calculate_year_proximity_score c4Movie c4Filters = 1/10 := by
  have hp : parseYear4 "1990-01-01" = some 1990 := by decide
  norm_num [calculate_year_proximity_score, c4Movie, c4Filters, pyTruthyI, hp]
  decide

theorem c4_keyword_score :
    calculate_keyword_relevance_score c4Movie c4Filters = 0 := by
  have hs1 : strContains (pyLower "ZZ") (pyLower "zzz") = false := by decide
  have hs2 : strContains (pyLower "") (pyLower "zzz") = false := by decide
  norm_num [calculate_keyword_relevance_score, c4Movie, c4Filters, hs1, hs2]

theorem c4_popularity_score : calculate_popularity_score c4Movie = 1/5 := by
  norm_num [calculate_popularity_score, ratingVal, c4Movie, Option.orElse]

/-- C4 counterexample: a concrete candidate whose final relevance score is
0.07 < 0.1 — the clamp to `[0.1, 1.0]` happens before the ×0.7 low-rating
penalty, so the claimed interval `[0.1, 1.0]` does not hold.  (The jitter
seed, `abs(hash(id+title)) % 100`, is process-dependent in Python; the hash
outcome 1 is exhibited here.) -/
theorem C4_score_below_floor_counterexample :
    calculate_relevance_score (fun _ => 1) c4Movie c4Filters = 7/100 ∧
    ¬ (1/10 ≤ calculate_relevance_score (fun _ => 1) c4Movie c4Filters) := by
  have h : calculate_relevance_score (fun _ => 1) c4Movie c4Filters = 7/100 := by
    norm_num [calculate_relevance_score, c4_genre_score, c4_rating_score,
      c4_year_score, c4_keyword_score, c4_popularity_score, c4_ratingVal]
  exact ⟨h, by rw [h]; norm_num⟩

/-- C4 (amended): for every candidate, every filters value and every jitter
hash outcome, the relevance score lies in `[0.07, 1.0]`: the clamp to
`[0.1, 1.0]` is applied before the ×0.7 penalty for ratings in `(0, 4)`, so
the penalty can push a score as low as 0.07 (only the emergency sentinel
scores exactly 0, bypassing the scorer). -/
theorem C4_relevance_score_bounds (hashF : String → Nat) (m : RawMovie)
    (f : ExtractedFilters) :
    7/100 ≤ calculate_relevance_score hashF m f ∧
    calculate_relevance_score hashF m f ≤ 1 := by
  unfold calculate_relevance_score
  exact clamp_penalty_bounds _ _

/-- Witness for C4 (amended): the theorem instantiated at the concrete
counterexample input. -/
theorem C4_relevance_score_bounds_witness :
    7/100 ≤ calculate_relevance_score (fun _ => 0) c4Movie c4Filters ∧
    calculate_relevance_score (fun _ => 0) c4Movie c4Filters ≤ 1 :=
  C4_relevance_score_bounds (fun _ => 0) c4Movie c4Filters

/-! ### C10 — genre ids as digit strings -/

theorem mem_dedupFirstAux (g : String) (seen l : List String)
    (h : g ∈ dedupFirstAux seen l) : g ∈ l := by
  induction l generalizing seen with
  | nil => simp [dedupFirstAux] at h
  | cons k ks ih =>
    simp only [dedupFirstAux] at h
    by_cases hk : k ∈ seen
    · rw [if_pos hk] at h
      exact List.mem_cons_of_mem _ (ih _ h)
    · rw [if_neg hk] at h
      rcases List.mem_cons.mp h with h | h
      · exact h ▸ List.mem_cons_self _ _
      · exact List.mem_cons_of_mem _ (ih _ h)

theorem mem_foldl_append {α β : Type} (f : β → List α) (l : List β)
    (init : List α) :
    ∀ x ∈ l.foldl (fun acc b => acc ++ f b) init,
      x ∈ init ∨ ∃ b ∈ l, x ∈ f b := by
  induction l generalizing init with
  | nil => intro x hx; exact Or.inl hx
  | cons b bs ih =>
    intro x hx
    simp only [List.foldl_cons] at hx
    rcases ih (init ++ f b) x hx with h | h
    · rcases List.mem_append.mp h with h | h
      · exact Or.inl h
      · exact Or.inr ⟨b, List.mem_cons_self _ _, h⟩
    · rcases h with ⟨b2, hb2, hx2⟩
      exact Or.inr ⟨b2, List.mem_cons_of_mem _ hb2, hx2⟩

/-- Every genre id the generic extraction path can produce is a decimal
digit string (supporting the declared
`genres: List[str]  # TMDB genre IDs as strings`). -/
theorem extract_genres_from_text_digit_strings (text : String) :
    ∀ g ∈ extract_genres_from_text text, isDigitStr g = true := by
  intro g hg
  have htab : ∀ p ∈ TMDB_GENRE_MAP, isDigitStr p.2 = true := by decide
  have hpat : ∀ p ∈ genrePatterns, ∀ i ∈ p.2, isDigitStr i = true := by decide
  simp only [extract_genres_from_text, dedupFirst] at hg
  have hg2 := mem_dedupFirstAux g _ _ hg
  rcases List.mem_append.mp hg2 with h | h
  · rcases List.mem_map.mp h with ⟨p, hp, hpg⟩
    exact hpg ▸ htab p (List.mem_of_mem_filter hp)
  · rcases mem_foldl_append _ _ _ g h with h | ⟨p, hp, hgp⟩
    · simp at h
    · exact hpat p (List.mem_of_mem_filter hp) g hgp

/-- C10 (the code defect): on the failing input "comedia española" the
fallback extractor returns the Python int genre list `[35]`, not digit
strings; `get_tmdb_genre_ids` then loses the genre entirely (the caught
`AttributeError` path), while with the declared string form "35" it would
return `[35]`. -/
theorem C10_comedy_branch_int_genres (currentYear : Int) :
    (extract_keywords_with_patterns currentYear "comedia española").genres =
      [GenreVal.int 35] ∧
    (∀ s, GenreVal.int 35 ≠ GenreVal.str s) ∧
    getTmdbGenreIds
      (extract_keywords_with_patterns currentYear "comedia española") = [] ∧
    getTmdbGenreIds
      { extract_keywords_with_patterns currentYear "comedia española" with
        genres := [GenreVal.str "35"] } = [35] := by
  have hc : (strContains (pyLower "comedia española") "comedia" &&
      (strContains (pyLower "comedia española") "español" ||
       strContains (pyLower "comedia española") "española")) = true := by
    decide
  refine ⟨?_, fun s => by simp, ?_, ?_⟩
  · simp only [extract_keywords_with_patterns, hc]
    simp
  · simp only [getTmdbGenreIds, extract_keywords_with_patterns, hc]
    simp
  · simp only [getTmdbGenreIds]
    norm_num [isDigitStr, strToInt, digitsToNat]
    decide

/-! ### C3 — the emergency tier -/

theorem cacheCollect_empty (fetch : String → List RawMovie)
    (hf : ∀ k, fetch k = []) (stopAt : Nat) :
    ∀ (keys : List String) (acc : List RawMovie),
      cacheCollect fetch stopAt keys acc = acc := by
  intro keys
  induction keys with
  | nil => intro acc; rfl
  | cons k ks ih =>
    intro acc
    simp only [cacheCollect, hf k]
    simpa using ih acc

theorem get_cached_empty_of_empty_cache (env : SearchEnv)
    (hf : ∀ k, env.cacheFetch k = []) (f : ExtractedFilters) (limit : Nat) :
    get_cached_movies_with_filtering env f limit = [] := by
  simp [get_cached_movies_with_filtering,
    cacheCollect_empty env.cacheFetch hf]

/-- C3 (amended): when the primary remote search fails (raises or yields
nothing), every cache key is empty, and the curated-defaults tier raises,
`search_movies_with_filters` returns exactly one recommendation, with
relevance score 0 and source `"emergency_fallback"` (the source label in
the code is `"emergency_fallback"`, not `"emergency"`). -/
theorem C3_all_tiers_fail_emergency (env : SearchEnv) (f : ExtractedFilters)
    (limit : Nat)
    (hp : retryLoop env.lambdaAttempts = none ∨
          retryLoop env.lambdaAttempts = some [])
    (hc : ∀ k, env.cacheFetch k = [])
    (ht : env.tertiaryRaises = true) :
    search_movies_with_filters env f limit =
      emergency_fallback_recommendation ∧
    (search_movies_with_filters env f limit).length = 1 ∧
    ∀ r ∈ search_movies_with_filters env f limit,
      r.relevance_score = 0 ∧ r.source = "emergency_fallback" := by
  have hmain : search_movies_with_filters env f limit =
      emergency_fallback_recommendation := by
    have hcache := get_cached_empty_of_empty_cache env hc f limit
    rcases hp with hp | hp
    · simp [search_movies_with_filters, hp, hcache, ht]
    · simp [search_movies_with_filters, hp, hcache, ht]
  refine ⟨hmain, ?_, ?_⟩
  · rw [hmain]; rfl
  · rw [hmain]
    intro r hr
    rcases List.mem_singleton.mp hr with rfl
    exact ⟨rfl, rfl⟩

/-- C3 counterexample: in a concrete all-tiers-fail environment the single
returned recommendation has source `"emergency_fallback"`, not
`"emergency"` as the claim states. -/
theorem C3_emergency_source_counterexample :
    search_movies_with_filters failEnv c3Filters 5 =
      emergency_fallback_recommendation ∧
    (search_movies_with_filters failEnv c3Filters 5).map
      (fun r => r.source) = ["emergency_fallback"] ∧
    (search_movies_with_filters failEnv c3Filters 5).map
      (fun r => r.relevance_score) = [0] ∧
    "emergency_fallback" ≠ "emergency" := by
  refine ⟨by decide, by decide, ?_, by decide⟩
  have h : search_movies_with_filters failEnv c3Filters 5 =
      emergency_fallback_recommendation := by decide
  rw [h]
  rfl

/-- Witness for C3 (amended): the all-fail environment pushed through the
theorem. -/
theorem C3_all_tiers_fail_witness :
    (retryLoop failEnv.lambdaAttempts = none ∨
     retryLoop failEnv.lambdaAttempts = some []) ∧
    (∀ k, failEnv.cacheFetch k = []) ∧ failEnv.tertiaryRaises = true ∧
    (search_movies_with_filters failEnv c3Filters 3).length = 1 :=
  ⟨Or.inl rfl, fun _ => rfl, rfl,
   (C3_all_tiers_fail_emergency failEnv c3Filters 3 (Or.inl rfl)
     (fun _ => rfl) rfl).2.1⟩

/-! ### C2 — exclude-list handling across tiers -/

set_option maxHeartbeats 2000000 in
theorem c2_cached_tier_leak :
    (search_movies_with_filters c2Env c2Filters 1).map
      (fun r => pyStrOfMovieId r.movieId) = ["123"] := by
  have h1 : retryLoop c2Env.lambdaAttempts = none := rfl
  have hcol : cacheCollect c2Env.cacheFetch (1 * 3)
      (build_cache_key_strategy c2Filters) [] = [c2Movie] := by decide
  have hd : deduplicate_movies [c2Movie] = [c2Movie] := by decide
  have hscored : apply_enhanced_client_side_filtering [c2Movie] c2Filters =
      [(c2Movie, 1)] := by
    norm_num [apply_enhanced_client_side_filtering, enhancedCacheScore,
      c2Movie, c2Filters, ratingVal, Option.orElse, sortDescBy, insertDescBy,
      List.filterMap_cons]
  have hnorm : validate_and_normalize_movie_data c2Env c2Movie =
      { id := 123, title := "Pelicula Uno",
        overview := "Una historia de prueba suficientemente larga.",
        poster := "https://via.placeholder.com/500x750/2c3e50/ecf0f1?text=Sin+Poster",
        rating := 8, releaseDate := "2014-03-14", voteCount := 1500,
        genreIds := [] } := by decide
  have hmeets : meets_minimum_data_requirements
      { id := 123, title := "Pelicula Uno",
        overview := "Una historia de prueba suficientemente larga.",
        poster := "https://via.placeholder.com/500x750/2c3e50/ecf0f1?text=Sin+Poster",
        rating := 8, releaseDate := "2014-03-14", voteCount := 1500,
        genreIds := [] } = true := by decide
  simp only [search_movies_with_filters, h1]
  simp only [get_cached_movies_with_filtering, hcol, hd, hscored]
  norm_num [transform_cached_movies_to_recommendations, hnorm, hmeets,
    sortDescBy, insertDescBy, pyStrOfMovieId, List.filterMap_cons]
  decide

/-- C2 counterexample: with the primary tier failing and a cached movie
whose id "123" is on the exclude list, `search_movies_with_filters` returns
that movie anyway — the cached tier applies no exclude-list filter. -/
theorem C2_exclude_ids_leak_counterexample :
    c2Filters.exclude_ids = ["123"] ∧
    (search_movies_with_filters c2Env c2Filters 1).map
      (fun r => pyStrOfMovieId r.movieId) = ["123"] ∧
    "123" ∈ c2Filters.exclude_ids :=
  ⟨rfl, c2_cached_tier_leak, by decide⟩

/-- C2 (amended): the exclude list is forwarded unchanged in the primary
tier's remote payload (`excludeIds` passthrough — exclusion there is
delegated to the remote service), but the fallback tiers apply no
exclude-list filter of their own, so a fallback recommendation can carry an
excluded id. -/
theorem C2_exclude_ids_primary_passthrough_only :
    (∀ (f : ExtractedFilters) (limit : Nat),
      (transform_filters_to_lambda_payload f limit).excludeIds =
        f.exclude_ids) ∧
    (∃ r ∈ search_movies_with_filters c2Env c2Filters 1,
      pyStrOfMovieId r.movieId ∈ c2Filters.exclude_ids) := by
  constructor
  · intro f limit
    rfl
  · rcases hmap : search_movies_with_filters c2Env c2Filters 1 with _ | ⟨r, rest⟩
    · have := c2_cached_tier_leak
      rw [hmap] at this
      simp at this
    · have := c2_cached_tier_leak
      rw [hmap] at this
      refine ⟨r, List.mem_cons_self _ _, ?_⟩
      simp only [List.map_cons] at this
      have hr : pyStrOfMovieId r.movieId = "123" :=
        (List.cons.injEq _ _ _ _ ▸ this).1
      rw [hr]
      decide

/-! ### C1 — search result size and ordering -/

theorem quality_floor_pairwise (p : MovieRec → Bool) (sorted : List MovieRec)
    (h : sorted.Pairwise (fun a b => b.relevance_score ≤ a.relevance_score)) :
    (if sorted.length > 5 then
       if (sorted.filter p).length ≥ 3 then sorted.filter p else sorted
     else sorted).Pairwise
      (fun a b => b.relevance_score ≤ a.relevance_score) := by
  split
  · split
    · exact List.Pairwise.sublist (List.filter_sublist _) h
    · exact h
  · exact h

theorem transform_movies_sorted (env : SearchEnv) (ms : List RawMovie)
    (f : ExtractedFilters) :
    (transform_movies_to_recommendations env ms f).Pairwise
      (fun a b => b.relevance_score ≤ a.relevance_score) := by
  simp only [transform_movies_to_recommendations]
  exact quality_floor_pairwise _ _ (pairwise_sortDescBy _ _)

theorem transform_cached_sorted (env : SearchEnv)
    (ms : List (RawMovie × Option ℚ)) (f : ExtractedFilters) :
    (transform_cached_movies_to_recommendations env ms f).Pairwise
      (fun a b => b.relevance_score ≤ a.relevance_score) := by
  simp only [transform_cached_movies_to_recommendations]
  exact pairwise_sortDescBy _ _

theorem transform_cached_length (env : SearchEnv)
    (ms : List (RawMovie × Option ℚ)) (f : ExtractedFilters) :
    (transform_cached_movies_to_recommendations env ms f).length ≤
      ms.length := by
  simp only [transform_cached_movies_to_recommendations]
  rw [length_sortDescBy]
  exact List.length_filterMap_le _ _

theorem get_cached_sorted (env : SearchEnv) (f : ExtractedFilters)
    (limit : Nat) :
    (get_cached_movies_with_filtering env f limit).Pairwise
      (fun a b => b.relevance_score ≤ a.relevance_score) := by
  simp only [get_cached_movies_with_filtering]
  split
  · exact List.Pairwise.nil
  · exact pairwise_map_key _ _ _ (fun a => rfl) _ (transform_cached_sorted _ _ _)

theorem get_cached_length (env : SearchEnv) (f : ExtractedFilters)
    (limit : Nat) :
    (get_cached_movies_with_filtering env f limit).length ≤ limit := by
  simp only [get_cached_movies_with_filtering]
  split
  · simp
  · rw [List.length_map]
    exact le_trans (transform_cached_length _ _ _) (List.length_take_le _ _)

theorem smart_default_sorted (env : SearchEnv) (f : ExtractedFilters)
    (limit : Nat) :
    (get_smart_default_recommendations_with_scoring env f limit).Pairwise
      (fun a b => b.relevance_score ≤ a.relevance_score) := by
  simp only [get_smart_default_recommendations_with_scoring]
  exact pairwise_sortDescBy _ _

theorem smart_default_length (env : SearchEnv) (f : ExtractedFilters)
    (limit : Nat) :
    (get_smart_default_recommendations_with_scoring env f limit).length ≤
      limit := by
  simp only [get_smart_default_recommendations_with_scoring]
  rw [length_sortDescBy, List.length_map]
  exact List.length_take_le _ _

/-- Shape of the cascade result: a non-empty primary transform cut to
`limit`, a non-empty cached tier, a non-empty curated tier, or the
emergency entry. -/
theorem search_result_shape (env : SearchEnv) (f : ExtractedFilters)
    (limit : Nat) :
    (∃ recs : List MovieRec, recs ≠ [] ∧
      recs.Pairwise (fun a b => b.relevance_score ≤ a.relevance_score) ∧
      search_movies_with_filters env f limit = recs.take limit) ∨
    (search_movies_with_filters env f limit =
        get_cached_movies_with_filtering env f limit ∧
      get_cached_movies_with_filtering env f limit ≠ []) ∨
    (search_movies_with_filters env f limit =
        get_smart_default_recommendations_with_scoring env f limit ∧
      get_smart_default_recommendations_with_scoring env f limit ≠ []) ∨
    search_movies_with_filters env f limit =
      emergency_fallback_recommendation := by
  have fallback :
      search_movies_with_filters env f limit =
        (let cached := get_cached_movies_with_filtering env f limit
         if cached ≠ [] then cached
         else
           let defaults :=
             if env.tertiaryRaises then []
             else get_smart_default_recommendations_with_scoring env f limit
           if defaults ≠ [] then defaults
           else emergency_fallback_recommendation) →
      (search_movies_with_filters env f limit =
          get_cached_movies_with_filtering env f limit ∧
        get_cached_movies_with_filtering env f limit ≠ []) ∨
      (search_movies_with_filters env f limit =
          get_smart_default_recommendations_with_scoring env f limit ∧
        get_smart_default_recommendations_with_scoring env f limit ≠ []) ∨
      search_movies_with_filters env f limit =
        emergency_fallback_recommendation := by
    intro heq
    by_cases hc : get_cached_movies_with_filtering env f limit = []
    · by_cases ht : env.tertiaryRaises
      · refine Or.inr (Or.inr ?_)
        rw [heq]
        simp [hc, ht]
      · by_cases hd : get_smart_default_recommendations_with_scoring env
            f limit = []
        · refine Or.inr (Or.inr ?_)
          rw [heq]
          simp [hc, ht, hd]
        · refine Or.inr (Or.inl ⟨?_, hd⟩)
          rw [heq]
          simp [hc, ht, hd]
    · refine Or.inl ⟨?_, hc⟩
      rw [heq]
      simp [hc]
  rcases hR : retryLoop env.lambdaAttempts with _ | md
  · exact Or.inr (fallback (by simp only [search_movies_with_filters, hR]))
  · by_cases hm : md = []
    · refine Or.inr (fallback ?_)
      simp only [search_movies_with_filters, hR, hm]
      simp
    · by_cases hv : (validate_movie_results_quality md f).length ≥ 3
      · by_cases hr : transform_movies_to_recommendations env
            (validate_movie_results_quality md f) f = []
        · refine Or.inr (fallback ?_)
          simp only [search_movies_with_filters, hR]
          simp [hm, hv, hr]
        · refine Or.inl ⟨transform_movies_to_recommendations env
            (validate_movie_results_quality md f) f, hr,
            transform_movies_sorted env _ f, ?_⟩
          simp only [search_movies_with_filters, hR]
          simp [hm, hv, hr]
      · refine Or.inr (fallback ?_)
        simp only [search_movies_with_filters, hR]
        simp [hm, hv]

/-- C1: for every environment and filters value and every `limit ≥ 1`,
`search_movies_with_filters` returns between 1 and `limit`
recommendations, sorted non-increasingly by relevance score; in the worst
case it is the single emergency entry, never an empty list. -/
theorem C1_search_bounded_and_sorted (env : SearchEnv)
    (f : ExtractedFilters) (limit : Nat) (hl : 1 ≤ limit) :
    1 ≤ (search_movies_with_filters env f limit).length ∧
    (search_movies_with_filters env f limit).length ≤ limit ∧
    (search_movies_with_filters env f limit).Pairwise
      (fun a b => b.relevance_score ≤ a.relevance_score) := by
  rcases search_result_shape env f limit with
    ⟨recs, hne, hpw, heq⟩ | ⟨heq, hne⟩ | ⟨heq, hne⟩ | heq
  · rw [heq]
    refine ⟨?_, List.length_take_le _ _, ?_⟩
    · rw [List.length_take]
      have : 1 ≤ recs.length := List.length_pos.mpr hne
      omega
    · exact List.Pairwise.sublist (List.take_sublist _ _) hpw
  · rw [heq]
    exact ⟨List.length_pos.mpr hne, get_cached_length env f limit,
      get_cached_sorted env f limit⟩
  · rw [heq]
    exact ⟨List.length_pos.mpr hne, smart_default_length env f limit,
      smart_default_sorted env f limit⟩
  · rw [heq]
    exact ⟨by decide, hl, by decide⟩

/-- Witness for C1: the theorem evaluated in the all-tiers-fail
environment at `limit = 2`. -/
theorem C1_search_bounded_witness :
    1 ≤ 2 ∧
    (1 ≤ (search_movies_with_filters failEnv c2Filters 2).length ∧
     (search_movies_with_filters failEnv c2Filters 2).length ≤ 2 ∧
     (search_movies_with_filters failEnv c2Filters 2).Pairwise
       (fun a b => b.relevance_score ≤ a.relevance_score)) :=
  ⟨by decide, C1_search_bounded_and_sorted failEnv c2Filters 2 (by decide)⟩

/-! ### C6 — idempotence infrastructure -/

theorem dropWhile_dropWhile (p : Char → Bool) (l : List Char) :
    (l.dropWhile p).dropWhile p = l.dropWhile p := by
  cases hd : l.dropWhile p with
  | nil => simp
  | cons a as =>
    have h := List.head?_dropWhile_not p l
    rw [hd] at h
    simp only [List.head?_cons] at h
    simp [List.dropWhile_cons, h]

theorem stripChars_core (l : List Char) :
    let ws := Char.isWhitespace
    let x := l.dropWhile ws
    let u := x.reverse.dropWhile ws
    u.reverse.dropWhile ws = u.reverse := by
  intro ws x u
  cases hu : u with
  | nil => simp [hu]
  | cons a as =>
    have hx : x ≠ [] := by
      intro hxe
      rw [show u = x.reverse.dropWhile ws from rfl, hxe] at hu
      simp at hu
    have hlast : u.getLast? = x.head? := by
      obtain ⟨t, ht⟩ := List.dropWhile_suffix (l := x.reverse) ws
      have hne : u ≠ [] := by rw [hu]; simp
      calc u.getLast? = (t ++ u).getLast? :=
            (List.getLast?_append_of_ne_nil t hne).symm
        _ = x.reverse.getLast? := by rw [ht]
        _ = x.head? := List.getLast?_reverse x
    have hxhead := List.head?_dropWhile_not ws l
    rcases hxh : x.head? with _ | c0
    · rcases x with _ | ⟨b, bs⟩
      · exact absurd rfl hx
      · simp at hxh
    · rw [show (l.dropWhile ws).head? = x.head? from rfl, hxh] at hxhead
      simp only at hxhead
      have hur : u.reverse.head? = some c0 := by
        rw [List.head?_reverse, hlast, hxh]
      rcases hurc : u.reverse with _ | ⟨b, bs⟩
      · rw [hurc] at hur; simp at hur
      · rw [hurc] at hur
        simp only [List.head?_cons, Option.some.injEq] at hur
        rw [← hu, hurc, List.dropWhile_cons, hur, hxhead]
        simp

theorem pyStrip_idem (s : String) : pyStrip (pyStrip s) = pyStrip s := by
  show String.mk _ = String.mk _
  have hcore := stripChars_core s.toList
  simp only at hcore
  unfold pyStrip
  congr 1
  show ((((((s.toList.dropWhile Char.isWhitespace).reverse.dropWhile
      Char.isWhitespace).reverse).dropWhile
      Char.isWhitespace).reverse).dropWhile Char.isWhitespace).reverse = _
  rw [hcore, List.reverse_reverse,
    dropWhile_dropWhile Char.isWhitespace
      (s.toList.dropWhile Char.isWhitespace).reverse]

theorem filterMap_eq_self_of {α : Type} (h : α → Option α) (l : List α)
    (hl : ∀ x ∈ l, h x = some x) : l.filterMap h = l := by
  induction l with
  | nil => rfl
  | cons a as ih =>
    rw [List.filterMap_cons, hl a (List.mem_cons_self _ _),
      ih (fun x hx => hl x (List.mem_cons_of_mem _ hx))]

theorem eav_keywords_props (ks : List Json) :
    (∀ kw ∈ extract_and_validate_keywords ks,
      pyStrip kw = kw ∧ 2 ≤ kw.length ∧ kw.length ≤ 50) ∧
    (extract_and_validate_keywords ks).length ≤ 10 := by
  constructor
  · intro kw hkw
    have hkw2 : kw ∈ ks.filterMap _ :=
      (List.take_sublist 10 _).subset hkw
    rcases List.mem_filterMap.mp hkw2 with ⟨j, hj, hjeq⟩
    rcases j with _ | b | n | q | s | xs | fs
    case str =>
      simp only at hjeq
      by_cases hc : 2 ≤ (pyStrip s).length ∧ (pyStrip s).length ≤ 50
      · rw [if_pos hc] at hjeq
        rcases Option.some.injEq _ _ ▸ hjeq with rfl
        exact ⟨pyStrip_idem s, hc⟩
      · rw [if_neg hc] at hjeq
        exact absurd hjeq (by simp)
    all_goals exact absurd hjeq (by simp)
  · exact List.length_take_le _ _

theorem eav_keywords_roundtrip (l : List String)
    (h : ∀ kw ∈ l, pyStrip kw = kw ∧ 2 ≤ kw.length ∧ kw.length ≤ 50)
    (hlen : l.length ≤ 10) :
    extract_and_validate_keywords (l.map Json.str) = l := by
  unfold extract_and_validate_keywords
  rw [List.filterMap_map]
  have : l.filterMap _ = l := filterMap_eq_self_of _ l (fun kw hkw => by
    rcases h kw hkw with ⟨hstrip, h2, h50⟩
    show (if 2 ≤ (pyStrip kw).length ∧ (pyStrip kw).length ≤ 50
      then some (pyStrip kw) else none) = some kw
    rw [hstrip]
    simp [h2, h50])
  have h2 : List.filterMap ((fun j =>
      match j with
      | Json.str s =>
        let c := pyStrip s
        if 2 ≤ c.length ∧ c.length ≤ 50 then some c else none
      | _ => none) ∘ Json.str) l = l := this
  rw [h2]
  exact List.take_of_length_le hlen

theorem get_genre_id_props (name : String) (i : String)
    (h : get_genre_id_by_name name = some i) :
    isDigitStr i = true ∧ 1 ≤ strToInt i ∧ strToInt i ≤ 99999 := by
  have htab : ∀ p ∈ TMDB_GENRE_MAP, isDigitStr p.2 = true ∧
      1 ≤ strToInt p.2 ∧ strToInt p.2 ≤ 99999 := by decide
  have hpat : ∀ p ∈ genrePatterns, ∀ j ∈ p.2, isDigitStr j = true ∧
      1 ≤ strToInt j ∧ strToInt j ≤ 99999 := by decide
  simp only [get_genre_id_by_name] at h
  rcases h1 : TMDB_GENRE_MAP.find?
      (fun p => p.1 == pyStrip (pyLower name)) with _ | p
  · rw [h1] at h
    rcases h2 : genrePatterns.find? (fun p => p.1.any
        (fun alt => strContains (pyStrip (pyLower name)) alt)) with _ | p
    · rw [h2] at h; simp at h
    · rw [h2] at h
      simp only at h
      have hp := List.mem_of_find?_eq_some h2
      rcases hh : p.2 with _ | ⟨j0, js⟩
      · rw [hh] at h; simp at h
      · rw [hh] at h
        simp only [List.head?_cons, Option.some.injEq] at h
        exact h ▸ hpat p hp j0 (by rw [hh]; exact List.mem_cons_self _ _)
  · rw [h1] at h
    simp only [Option.some.injEq] at h
    exact h ▸ htab p (List.mem_of_find?_eq_some h1)

theorem eav_genres_digit (xs : List Json)
    (hstr : ∀ x ∈ xs, ∃ s, x = Json.str s) :
    ∀ g ∈ extract_and_validate_genres xs, ∃ s, g = GenreVal.str s ∧
      isDigitStr s = true ∧ 1 ≤ strToInt s ∧ strToInt s ≤ 99999 := by
  intro g hg
  rcases List.mem_filterMap.mp hg with ⟨j, hj, hjeq⟩
  rcases hstr j hj with ⟨s, rfl⟩
  simp only at hjeq
  by_cases hd : isDigitStr s = true
  · rw [if_pos hd] at hjeq
    by_cases hr : 1 ≤ strToInt s ∧ strToInt s ≤ 99999
    · rw [if_pos hr] at hjeq
      rcases Option.some.injEq _ _ ▸ hjeq with rfl
      exact ⟨s, rfl, hd, hr⟩
    · rw [if_neg hr] at hjeq
      exact absurd hjeq (by simp)
  · rw [if_neg hd] at hjeq
    rcases Option.map_eq_some'.mp hjeq with ⟨i, hi, rfl⟩
    exact ⟨i, rfl, get_genre_id_props _ _ hi⟩

theorem eav_genres_roundtrip (gs : List GenreVal)
    (h : ∀ g ∈ gs, ∃ s, g = GenreVal.str s ∧ isDigitStr s = true ∧
      1 ≤ strToInt s ∧ strToInt s ≤ 99999) :
    extract_and_validate_genres (gs.map (fun g =>
      match g with
      | .str s => Json.str s
      | .int n => Json.int n)) = gs := by
  unfold extract_and_validate_genres
  rw [List.filterMap_map]
  exact filterMap_eq_self_of _ gs (fun g hg => by
    rcases h g hg with ⟨s, rfl, hd, hr⟩
    simp only [Function.comp]
    rw [if_pos hd, if_pos hr])

theorem eav_year_props (yd : Option Json) (yr : YearRange)
    (h : extract_and_validate_year_range yd = some yr) :
    (yr.min_year = none ∨
      ∃ m, yr.min_year = some m ∧ 1900 ≤ m ∧ m ≤ 2030) ∧
    (yr.max_year = none ∨
      ∃ M, yr.max_year = some M ∧ 1900 ≤ M ∧ M ≤ 2030) ∧
    (yr.min_year.isSome = true ∨ yr.max_year.isSome = true) := by
  have hfield : ∀ (o : Option Json),
      validYearField o = none ∨
      ∃ n, validYearField o = some n ∧ 1900 ≤ n ∧ n ≤ 2030 := by
    intro o
    rcases hv : validYearField o with _ | n
    · exact Or.inl rfl
    · exact Or.inr ⟨n, rfl, validYearField_bounds o n hv⟩
  rcases yd with _ | (_ | b | n | q | s | xs | fields)
  · simp [extract_and_validate_year_range] at h
  · simp [extract_and_validate_year_range] at h
  · simp [extract_and_validate_year_range] at h
  · simp [extract_and_validate_year_range] at h
  · simp [extract_and_validate_year_range] at h
  · simp [extract_and_validate_year_range] at h
  · simp [extract_and_validate_year_range] at h
  · simp only [extract_and_validate_year_range] at h
    by_cases he : fields.isEmpty
    · simp [he] at h
    · simp only [he, Bool.false_eq_true, if_false] at h
      by_cases hswap : pyTruthyI (validYearField (jsonGet fields "min")) ∧
          pyTruthyI (validYearField (jsonGet fields "max")) ∧
          (validYearField (jsonGet fields "min")).getD 0 >
            (validYearField (jsonGet fields "max")).getD 0
      · simp only [if_pos hswap] at h
        by_cases hs : (validYearField (jsonGet fields "max")).isSome ∨
            (validYearField (jsonGet fields "min")).isSome
        · simp only [if_pos hs, Option.some.injEq] at h
          subst h
          exact ⟨hfield _ |>.imp (fun hh => hh) id |>.imp_right id |>.imp_left id
            |>.elim (fun hh => Or.inl hh) (fun ⟨n, hn, hb⟩ => Or.inr ⟨n, hn, hb⟩),
            hfield _ |>.elim (fun hh => Or.inl hh)
              (fun ⟨n, hn, hb⟩ => Or.inr ⟨n, hn, hb⟩),
            by simpa [Or.comm] using hs⟩
        · simp [if_neg hs] at h
      · simp only [if_neg hswap] at h
        by_cases hs : (validYearField (jsonGet fields "min")).isSome ∨
            (validYearField (jsonGet fields "max")).isSome
        · simp only [if_pos hs, Option.some.injEq] at h
          subst h
          exact ⟨hfield _ |>.elim (fun hh => Or.inl hh)
              (fun ⟨n, hn, hb⟩ => Or.inr ⟨n, hn, hb⟩),
            hfield _ |>.elim (fun hh => Or.inl hh)
              (fun ⟨n, hn, hb⟩ => Or.inr ⟨n, hn, hb⟩),
            by simpa using hs⟩
        · simp [if_neg hs] at h

theorem eav_year_roundtrip (yr : YearRange)
    (hmin : yr.min_year = none ∨
      ∃ m, yr.min_year = some m ∧ 1900 ≤ m ∧ m ≤ 2030)
    (hmax : yr.max_year = none ∨
      ∃ M, yr.max_year = some M ∧ 1900 ≤ M ∧ M ≤ 2030)
    (hne : yr.min_year.isSome = true ∨ yr.max_year.isSome = true)
    (hord : ∀ m M, yr.min_year = some m → yr.max_year = some M → m ≤ M) :
    extract_and_validate_year_range (some (.obj [
      ("min", match yr.min_year with
        | some m => Json.int m
        | none => Json.null),
      ("max", match yr.max_year with
        | some M => Json.int M
        | none => Json.null)])) = some yr := by
  have hvmin : validYearField (some (match yr.min_year with
      | some m => Json.int m
      | none => Json.null)) = yr.min_year := by
    rcases hmin with hm | ⟨m, hm, h1, h2⟩
    · rw [hm]; rfl
    · rw [hm]
      simp [validYearField, jintZ, h1, h2]
  have hvmax : validYearField (some (match yr.max_year with
      | some M => Json.int M
      | none => Json.null)) = yr.max_year := by
    rcases hmax with hm | ⟨M, hm, h1, h2⟩
    · rw [hm]; rfl
    · rw [hm]
      simp [validYearField, jintZ, h1, h2]
  have hg1 : jsonGet [
      ("min", match yr.min_year with
        | some m => Json.int m
        | none => Json.null),
      ("max", match yr.max_year with
        | some M => Json.int M
        | none => Json.null)] "min" = some (match yr.min_year with
        | some m => Json.int m
        | none => Json.null) := rfl
  have hg2 : jsonGet [
      ("min", match yr.min_year with
        | some m => Json.int m
        | none => Json.null),
      ("max", match yr.max_year with
        | some M => Json.int M
        | none => Json.null)] "max" = some (match yr.max_year with
        | some M => Json.int M
        | none => Json.null) := rfl
  have hswap : ¬ (pyTruthyI yr.min_year = true ∧ pyTruthyI yr.max_year = true ∧
      yr.min_year.getD 0 > yr.max_year.getD 0) := by
    rintro ⟨h1, h2, h3⟩
    rcases hm : yr.min_year with _ | m
    · rw [hm] at h1; simp [pyTruthyI] at h1
    · rcases hM : yr.max_year with _ | M
      · rw [hM] at h2; simp [pyTruthyI] at h2
      · have := hord m M hm hM
        rw [hm, hM] at h3
        simp only [Option.getD_some] at h3
        omega
  simp only [extract_and_validate_year_range, List.isEmpty_cons,
    Bool.false_eq_true, if_false, hg1, hg2, hvmin, hvmax, hswap, if_neg,
    not_false_eq_true]
  rw [if_pos hne]

theorem eav_rating_props (fields : List (String × Json)) (rr : RatingRange)
    (h : extract_and_validate_rating_range fields = some rr) :
    (rr.min_rating = none ∨
      ∃ r, rr.min_rating = some r ∧ 0 ≤ r ∧ r ≤ 10) ∧
    (rr.max_rating = none ∨
      ∃ r, rr.max_rating = some r ∧ 0 ≤ r ∧ r ≤ 10) ∧
    (rr.min_rating.isSome = true ∨ rr.max_rating.isSome = true) ∧
    ¬ (pyTruthyQ rr.min_rating = true ∧ pyTruthyQ rr.max_rating = true ∧
       rr.min_rating.getD 0 > rr.max_rating.getD 0) := by
  have hfield : ∀ (o : Option Json),
      validRatingField o = none ∨
      ∃ r, validRatingField o = some r ∧ 0 ≤ r ∧ r ≤ 10 := by
    intro o
    rcases hv : validRatingField o with _ | r
    · exact Or.inl rfl
    · exact Or.inr ⟨r, rfl, validRatingField_bounds o r hv⟩
  simp only [extract_and_validate_rating_range] at h
  by_cases hswap : pyTruthyQ (validRatingField (jsonGet fields "rating_min")) ∧
      pyTruthyQ (validRatingField (jsonGet fields "rating_max")) ∧
      (validRatingField (jsonGet fields "rating_min")).getD 0 >
        (validRatingField (jsonGet fields "rating_max")).getD 0
  · simp only [if_pos hswap] at h
    by_cases hs : (validRatingField (jsonGet fields "rating_max")).isSome ∨
        (validRatingField (jsonGet fields "rating_min")).isSome
    · simp only [if_pos hs, Option.some.injEq] at h
      subst h
      refine ⟨hfield _ |>.elim Or.inl (fun ⟨r, hr, hb⟩ => Or.inr ⟨r, hr, hb⟩),
        hfield _ |>.elim Or.inl (fun ⟨r, hr, hb⟩ => Or.inr ⟨r, hr, hb⟩),
        by simpa [Or.comm] using hs, ?_⟩
      rintro ⟨h1, h2, h3⟩
      rcases hswap with ⟨g1, g2, g3⟩
      simp only at h1 h2 h3
      rcases hm : validRatingField (jsonGet fields "rating_min") with _ | a
      · rw [hm] at g1; simp [pyTruthyQ] at g1
      · rcases hM : validRatingField (jsonGet fields "rating_max") with _ | b
        · rw [hM] at g2; simp [pyTruthyQ] at g2
        · rw [hm, hM] at g3 h3
          simp only [Option.getD_some] at g3 h3
          exact absurd h3 (not_lt.mpr (le_of_lt g3))
    · simp [if_neg hs] at h
  · simp only [if_neg hswap] at h
    by_cases hs : (validRatingField (jsonGet fields "rating_min")).isSome ∨
        (validRatingField (jsonGet fields "rating_max")).isSome
    · simp only [if_pos hs, Option.some.injEq] at h
      subst h
      exact ⟨hfield _ |>.elim Or.inl (fun ⟨r, hr, hb⟩ => Or.inr ⟨r, hr, hb⟩),
        hfield _ |>.elim Or.inl (fun ⟨r, hr, hb⟩ => Or.inr ⟨r, hr, hb⟩),
        by simpa using hs, hswap⟩
    · simp [if_neg hs] at h

theorem eav_rating_roundtrip (fields : List (String × Json)) (rr : RatingRange)
    (hg1 : jsonGet fields "rating_min" = some (match rr.min_rating with
      | some r => Json.float r
      | none => Json.null))
    (hg2 : jsonGet fields "rating_max" = some (match rr.max_rating with
      | some r => Json.float r
      | none => Json.null))
    (hmin : rr.min_rating = none ∨
      ∃ r, rr.min_rating = some r ∧ 0 ≤ r ∧ r ≤ 10)
    (hmax : rr.max_rating = none ∨
      ∃ r, rr.max_rating = some r ∧ 0 ≤ r ∧ r ≤ 10)
    (hne : rr.min_rating.isSome = true ∨ rr.max_rating.isSome = true)
    (hswap : ¬ (pyTruthyQ rr.min_rating = true ∧
      pyTruthyQ rr.max_rating = true ∧
      rr.min_rating.getD 0 > rr.max_rating.getD 0)) :
    extract_and_validate_rating_range fields = some rr := by
  have hvmin : validRatingField (some (match rr.min_rating with
      | some r => Json.float r
      | none => Json.null)) = rr.min_rating := by
    rcases hmin with hm | ⟨r, hm, h1, h2⟩
    · rw [hm]; rfl
    · rw [hm]
      simp [validRatingField, jnumQ, h1, h2]
  have hvmax : validRatingField (some (match rr.max_rating with
      | some r => Json.float r
      | none => Json.null)) = rr.max_rating := by
    rcases hmax with hm | ⟨r, hm, h1, h2⟩
    · rw [hm]; rfl
    · rw [hm]
      simp [validRatingField, jnumQ, h1, h2]
  simp only [extract_and_validate_rating_range, hg1, hg2, hvmin, hvmax,
    hswap, if_neg, not_false_eq_true]
  rw [if_pos hne]

theorem validate_intent_valid (j : Json) :
    validate_intent j = "recommendation" ∨ validate_intent j = "information" ∨
    validate_intent j = "clarification" := by
  rcases j with _ | b | n | q | s | xs | fs
  all_goals try exact Or.inl rfl
  simp only [validate_intent]
  by_cases hc : pyLower s = "recommendation" ∨ pyLower s = "information" ∨
      pyLower s = "clarification"
  · rw [if_pos hc]
    exact hc
  · rw [if_neg hc]
    exact Or.inl rfl

theorem validate_intent_roundtrip (s : String)
    (h : s = "recommendation" ∨ s = "information" ∨ s = "clarification") :
    validate_intent (.str s) = s := by
  rcases h with rfl | rfl | rfl
  · decide
  · decide
  · decide

theorem validate_confidence_bounds (j : Json) :
    0 ≤ validate_confidence j ∧ validate_confidence j ≤ 1 := by
  simp only [validate_confidence]
  rcases jnumQ j with _ | q
  · norm_num
  · exact ⟨le_max_left _ _, max_le (by norm_num) (min_le_left _ _)⟩

theorem validate_confidence_roundtrip (c : ℚ) (h0 : 0 ≤ c) (h1 : c ≤ 1) :
    validate_confidence (.float c) = c := by
  simp only [validate_confidence, jnumQ]
  rw [min_eq_right h1, max_eq_right h0]

theorem filterCount_aad (f : ExtractedFilters) :
    filterCount (apply_ambiguity_detection f) = filterCount f := rfl

theorem aad_genres (f : ExtractedFilters) :
    (apply_ambiguity_detection f).genres = f.genres := rfl

theorem aad_year (f : ExtractedFilters) :
    (apply_ambiguity_detection f).year_range = f.year_range := rfl

theorem aad_rating (f : ExtractedFilters) :
    (apply_ambiguity_detection f).rating_range = f.rating_range := rfl

theorem aad_keywords (f : ExtractedFilters) :
    (apply_ambiguity_detection f).keywords = f.keywords := rfl

theorem aad_exclude (f : ExtractedFilters) :
    (apply_ambiguity_detection f).exclude_ids = f.exclude_ids := rfl

theorem aad_intent_preserved (f : ExtractedFilters)
    (hvalid : f.intent = "recommendation" ∨ f.intent = "information" ∨
      f.intent = "clarification")
    (hrc : f.intent = "recommendation" → 1/2 ≤ f.confidence)
    (hcount : f.intent = "recommendation" → 1 ≤ filterCount f)
    (h0 : filterCount f = 0 → f.intent = "clarification") :
    (apply_ambiguity_detection f).intent = f.intent := by
  simp only [apply_ambiguity_detection]
  rcases hvalid with hrec | hinfo | hclar
  · have hge1 := hcount hrec
    have hconf := hrc hrec
    have hfc0 : ¬ (filterCount f = 0) := by
      intro h
      rw [h] at hge1
      norm_num at hge1
    have hfc1 : ¬ (filterCount f < 1) := not_lt.mpr hge1
    simp only [hfc0, hfc1, if_false, hrec]
    have hc1 : 1/2 ≤ (if filterCount f ≥ 2 then
        min (f.confidence + min (f.confidence * (1/10)) (1/10)) 1
        else f.confidence) := by
      split
      · refine le_min ?_ (by norm_num)
        have : 0 ≤ min (f.confidence * (1/10)) (1/10) :=
          le_min (by nlinarith) (by norm_num)
        linarith
      · exact hconf
    rcases hyr : f.year_range with _ | yr
    · simp only
      rw [if_neg]
      rintro ⟨hlt, -⟩
      exact absurd hlt (not_lt.mpr hc1)
    · simp only
      split
      · rw [if_neg]
        rintro ⟨hlt, -⟩
        have : (1:ℚ)/2 ≤ min (if filterCount f ≥ 2 then
            min (f.confidence + min (f.confidence * (1/10)) (1/10)) 1
            else f.confidence) (6/10) := le_min hc1 (by norm_num)
        exact absurd hlt (not_lt.mpr this)
      · rw [if_neg]
        rintro ⟨hlt, -⟩
        exact absurd hlt (not_lt.mpr hc1)
  · have hfc0 : ¬ (filterCount f = 0) := by
      intro h
      rw [h0 h] at hinfo
      simp at hinfo
    simp only [hfc0, if_false, hinfo]
    have : ¬ ("information" = "recommendation") := by decide
    rcases hyr : f.year_range with _ | yr
    · simp [this]
    · simp [this]
  · by_cases hfc0 : filterCount f = 0
    · simp only [hfc0, if_true, hclar]
      have : ¬ ("clarification" = "recommendation") := by decide
      rcases hyr : f.year_range with _ | yr
      · simp [this]
      · simp [this]
    · simp only [hfc0, if_false, hclar]
      have : ¬ ("clarification" = "recommendation") := by decide
      rcases hyr : f.year_range with _ | yr
      · simp [this]
      · simp [this]

theorem aad_conf_bounds (f : ExtractedFilters) (hl : 0 ≤ f.confidence)
    (hh : f.confidence ≤ 1) :
    0 ≤ (apply_ambiguity_detection f).confidence ∧
    (apply_ambiguity_detection f).confidence ≤ 1 := by
  simp only [apply_ambiguity_detection]
  have hc1 : 0 ≤ (if filterCount f = 0 then min f.confidence (2/10)
      else if filterCount f < 1 then min f.confidence (4/10)
      else if filterCount f ≥ 2 then
        min (f.confidence + min (f.confidence * (1/10)) (1/10)) 1
      else f.confidence) ∧
      (if filterCount f = 0 then min f.confidence (2/10)
      else if filterCount f < 1 then min f.confidence (4/10)
      else if filterCount f ≥ 2 then
        min (f.confidence + min (f.confidence * (1/10)) (1/10)) 1
      else f.confidence) ≤ 1 := by
    split
    · exact ⟨le_min hl (by norm_num), le_trans (min_le_left _ _) hh⟩
    · split
      · exact ⟨le_min hl (by norm_num), le_trans (min_le_left _ _) hh⟩
      · split
        · refine ⟨le_min ?_ (by norm_num), min_le_right _ _⟩
          have : 0 ≤ min (f.confidence * (1/10)) (1/10) :=
            le_min (by nlinarith) (by norm_num)
          linarith
        · exact ⟨hl, hh⟩
  rcases hyr : f.year_range with _ | yr
  · exact hc1
  · simp only
    split
    · exact ⟨le_min hc1.1 (by norm_num), le_trans (min_le_left _ _) hc1.2⟩
    · exact hc1

theorem ite_intent_rec (c2 : ℚ) (i1 : String)
    (h : (if c2 < 1/2 ∧ i1 = "recommendation" then "clarification" else i1) =
      "recommendation") : i1 = "recommendation" ∧ ¬ (c2 < 1/2) := by
  by_cases hc : c2 < 1/2 ∧ i1 = "recommendation"
  · rw [if_pos hc] at h
    exact absurd h (by decide)
  · rw [if_neg hc] at h
    subst h
    push_neg at hc
    exact ⟨rfl, fun hlt => absurd rfl (hc hlt)⟩

theorem aad_rec_inv (f : ExtractedFilters)
    (hrec : (apply_ambiguity_detection f).intent = "recommendation") :
    1/2 ≤ (apply_ambiguity_detection f).confidence ∧
    1 ≤ filterCount f := by
  simp only [apply_ambiguity_detection] at hrec
  obtain ⟨hi1, hnlt⟩ := ite_intent_rec _ _ hrec
  have hfc0 : ¬ (filterCount f = 0) := by
    intro h
    rw [if_pos h] at hi1
    exact absurd hi1 (by decide)
  constructor
  · simpa only [apply_ambiguity_detection] using not_lt.mp hnlt
  · by_contra hlt1
    push_neg at hlt1
    have hfc1 : filterCount f < 1 := hlt1
    simp only [hfc0, if_false, hfc1, if_true] at hnlt
    apply hnlt
    have hle : (min f.confidence (4/10) : ℚ) ≤ 4/10 := min_le_right _ _
    rcases hyr : f.year_range with _ | yr
    · simp only
      linarith
    · simp only
      split
      · have := min_le_left (min f.confidence (4/10)) ((6:ℚ)/10)
        linarith
      · linarith

theorem aad_count0 (f : ExtractedFilters) (h : filterCount f = 0) :
    (apply_ambiguity_detection f).intent = "clarification" := by
  simp only [apply_ambiguity_detection, h, if_true]
  have : ¬ ("clarification" = "recommendation") := by decide
  rcases f.year_range with _ | yr
  · simp [this]
  · simp [this]

theorem aad_intent_valid (f : ExtractedFilters)
    (h : f.intent = "recommendation" ∨ f.intent = "information" ∨
      f.intent = "clarification") :
    (apply_ambiguity_detection f).intent = "recommendation" ∨
    (apply_ambiguity_detection f).intent = "information" ∨
    (apply_ambiguity_detection f).intent = "clarification" := by
  have key : ∀ (c : ℚ) (i : String),
      (i = "recommendation" ∨ i = "information" ∨ i = "clarification") →
      ((if c < 1/2 ∧ i = "recommendation" then "clarification" else i) =
          "recommendation" ∨
        (if c < 1/2 ∧ i = "recommendation" then "clarification" else i) =
          "information" ∨
        (if c < 1/2 ∧ i = "recommendation" then "clarification" else i) =
          "clarification") := by
    intro c i hi
    split
    · exact Or.inr (Or.inr rfl)
    · exact hi
  simp only [apply_ambiguity_detection]
  apply key
  split
  · exact Or.inr (Or.inr rfl)
  · exact h

theorem valid_output_mk (fields : List (String × Json)) (kws : List String)
    (hkw : ∀ kw ∈ kws, pyStrip kw = kw ∧ 2 ≤ kw.length ∧ kw.length ≤ 50)
    (hkwlen : kws.length ≤ 10)
    (hgs : ∀ x ∈ (match jsonGet fields "genres" with
      | some (.arr xs) => xs
      | _ => []), ∃ s, x = Json.str s) :
    ValidOutput (apply_ambiguity_detection {
      genres := extract_and_validate_genres (match jsonGet fields "genres" with
        | some (.arr xs) => xs
        | _ => [])
      year_range := extract_and_validate_year_range (jsonGet fields "year_range")
      rating_range := extract_and_validate_rating_range fields
      keywords := kws
      intent := validate_intent ((jsonGet fields "intent").getD .null)
      confidence := validate_confidence ((jsonGet fields "confidence").getD .null)
      exclude_ids := [] }) := by
  refine {
    genres_digit := ?_, year_min := ?_, year_max := ?_, year_not_empty := ?_,
    year_ordered := ?_, rating_min := ?_, rating_max := ?_,
    rating_not_empty := ?_, rating_no_swap := ?_, keywords_clean := ?_,
    keywords_le := ?_, intent_valid := ?_, conf_lo := ?_, conf_hi := ?_,
    rec_conf := ?_, rec_count := ?_, count0_clar := ?_, exclude_nil := ?_ }
  · intro g hg
    exact eav_genres_digit _ hgs g hg
  · intro yr hyr
    exact (eav_year_props (jsonGet fields "year_range") yr hyr).1
  · intro yr hyr
    exact (eav_year_props (jsonGet fields "year_range") yr hyr).2.1
  · intro yr hyr
    exact (eav_year_props (jsonGet fields "year_range") yr hyr).2.2
  · intro yr hyr
    exact eav_year_range_ordered (jsonGet fields "year_range") yr hyr
  · intro rr hrr
    exact (eav_rating_props fields rr hrr).1
  · intro rr hrr
    exact (eav_rating_props fields rr hrr).2.1
  · intro rr hrr
    exact (eav_rating_props fields rr hrr).2.2.1
  · intro rr hrr
    exact (eav_rating_props fields rr hrr).2.2.2
  · intro kw hkwm
    exact hkw kw hkwm
  · exact hkwlen
  · exact aad_intent_valid _ (validate_intent_valid _)
  · exact (aad_conf_bounds _ (validate_confidence_bounds _).1
      (validate_confidence_bounds _).2).1
  · exact (aad_conf_bounds _ (validate_confidence_bounds _).1
      (validate_confidence_bounds _).2).2
  · intro hrec
    exact (aad_rec_inv _ hrec).1
  · intro hrec
    exact (aad_rec_inv _ hrec).2
  · intro h0
    exact aad_count0 _ h0
  · rfl

theorem pav_valid_output (j : Json) (f : ExtractedFilters)
    (h : parse_and_validate_json_response j = some f)
    (hgs : payloadGenresAllStrings j) : ValidOutput f := by
  rcases j with _ | b | n | q | s | xs | fields
  · simp [parse_and_validate_json_response] at h
  · simp [parse_and_validate_json_response] at h
  · simp [parse_and_validate_json_response] at h
  · simp [parse_and_validate_json_response] at h
  · simp [parse_and_validate_json_response] at h
  · simp [parse_and_validate_json_response] at h
  · have hgs2 : ∀ x ∈ (match jsonGet fields "genres" with
        | some (.arr xs) => xs
        | _ => []), ∃ s, x = Json.str s := by
      simp only [payloadGenresAllStrings] at hgs
      rcases hg : jsonGet fields "genres" with _ | (_ | b2 | n2 | q2 | s2 | xs2 | fs2)
      · intro x hx; exact absurd hx (List.not_mem_nil x)
      · intro x hx; exact absurd hx (List.not_mem_nil x)
      · intro x hx; exact absurd hx (List.not_mem_nil x)
      · intro x hx; exact absurd hx (List.not_mem_nil x)
      · intro x hx; exact absurd hx (List.not_mem_nil x)
      · intro x hx; exact absurd hx (List.not_mem_nil x)
      · rw [hg] at hgs; exact hgs
      · intro x hx; exact absurd hx (List.not_mem_nil x)
    simp only [parse_and_validate_json_response] at h
    by_cases hvjs : validate_json_structure fields = true
    · rw [if_pos hvjs] at h
      rcases hk : jsonGet fields "keywords" with _ | (_ | b2 | n2 | q2 | s2 | xs2 | fs2)
      · rw [hk] at h
        have hf := Option.some.inj h
        exact hf ▸ valid_output_mk fields []
          (fun kw hkwm => absurd hkwm (List.not_mem_nil kw)) (by simp) hgs2
      · rw [hk] at h
        exact Option.noConfusion h
      · rw [hk] at h
        exact Option.noConfusion h
      · rw [hk] at h
        exact Option.noConfusion h
      · rw [hk] at h
        exact Option.noConfusion h
      · rw [hk] at h
        have hf := Option.some.inj h
        exact hf ▸ valid_output_mk fields
          (extract_and_validate_keywords (s2.toList.map
            (fun c => Json.str (String.mk [c]))))
          (eav_keywords_props _).1 (eav_keywords_props _).2 hgs2
      · rw [hk] at h
        have hf := Option.some.inj h
        exact hf ▸ valid_output_mk fields (extract_and_validate_keywords xs2)
          (eav_keywords_props _).1 (eav_keywords_props _).2 hgs2
      · rw [hk] at h
        have hf := Option.some.inj h
        exact hf ▸ valid_output_mk fields
          (extract_and_validate_keywords (fs2.map (fun p => Json.str p.1)))
          (eav_keywords_props _).1 (eav_keywords_props _).2 hgs2
    · rw [if_neg hvjs] at h
      exact Option.noConfusion h

theorem pav_obj (f : ExtractedFilters) (fields : List (String × Json))
    (gl kl : List Json)
    (hvjs : validate_json_structure fields = true)
    (hg : jsonGet fields "genres" = some (.arr gl))
    (hk : jsonGet fields "keywords" = some (.arr kl))
    (hgr : extract_and_validate_genres gl = f.genres)
    (hyy : extract_and_validate_year_range (jsonGet fields "year_range") =
      f.year_range)
    (hrr : extract_and_validate_rating_range fields = f.rating_range)
    (hkw : extract_and_validate_keywords kl = f.keywords)
    (hit : validate_intent ((jsonGet fields "intent").getD .null) = f.intent)
    (hcf : validate_confidence ((jsonGet fields "confidence").getD .null) =
      f.confidence)
    (hex : f.exclude_ids = []) :
    parse_and_validate_json_response (.obj fields) =
      some (apply_ambiguity_detection f) := by
  simp only [parse_and_validate_json_response]
  rw [if_pos hvjs, hg, hk]
  show some (apply_ambiguity_detection {
      genres := extract_and_validate_genres gl
      year_range := extract_and_validate_year_range (jsonGet fields "year_range")
      rating_range := extract_and_validate_rating_range fields
      keywords := extract_and_validate_keywords kl
      intent := validate_intent ((jsonGet fields "intent").getD .null)
      confidence := validate_confidence ((jsonGet fields "confidence").getD .null)
      exclude_ids := [] }) = some (apply_ambiguity_detection f)
  rw [hgr, hyy, hrr, hkw, hit, hcf, ← hex]

theorem pav_roundtrip (f : ExtractedFilters) (hv : ValidOutput f) :
    parse_and_validate_json_response (filtersToPayload f) =
      some (apply_ambiguity_detection f) := by
  rw [filtersToPayload]
  refine pav_obj f _ _ _ ?_ rfl rfl ?_ ?_ ?_ ?_ ?_ ?_ hv.exclude_nil
  · show ((f.intent == "recommendation" || f.intent == "information" ||
        f.intent == "clarification") &&
      decide ((0 : ℚ) ≤ f.confidence ∧ f.confidence ≤ 1)) = true
    simp only [Bool.and_eq_true, Bool.or_eq_true, beq_iff_eq,
      decide_eq_true_eq]
    exact ⟨or_assoc.mpr hv.intent_valid, hv.conf_lo, hv.conf_hi⟩
  · exact eav_genres_roundtrip f.genres hv.genres_digit
  · rcases hfy : f.year_range with _ | yr
    · rfl
    · exact eav_year_roundtrip yr (hv.year_min yr hfy) (hv.year_max yr hfy)
        (hv.year_not_empty yr hfy) (hv.year_ordered yr hfy)
  · rcases hfr : f.rating_range with _ | rr
    · rfl
    · exact eav_rating_roundtrip _ rr rfl rfl (hv.rating_min rr hfr)
        (hv.rating_max rr hfr) (hv.rating_not_empty rr hfr)
        (hv.rating_no_swap rr hfr)
  · exact eav_keywords_roundtrip f.keywords hv.keywords_clean hv.keywords_le
  · exact validate_intent_roundtrip f.intent hv.intent_valid
  · exact validate_confidence_roundtrip f.confidence hv.conf_lo hv.conf_hi

theorem c6_aad_first : apply_ambiguity_detection
    { genres := [GenreVal.str "28"],
      year_range := some { min_year := some 1990, max_year := some 1999 },
      rating_range := none,
      keywords := [],
      intent := "recommendation",
      confidence := 1/2,
      exclude_ids := [] } = c6F1 := by
  norm_num [apply_ambiguity_detection, filterCount, pyTruthyI, c6F1, min_def]

theorem c6_aad_second : apply_ambiguity_detection c6F1 = c6F2 := by
  norm_num [apply_ambiguity_detection, filterCount, pyTruthyI, c6F1, c6F2,
    min_def]

theorem c6_first_pass :
    parse_and_validate_json_response c6Payload = some c6F1 := by
  have h0 : parse_and_validate_json_response c6Payload =
      some (apply_ambiguity_detection
        { genres := [GenreVal.str "28"],
          year_range := some { min_year := some 1990, max_year := some 1999 },
          rating_range := none,
          keywords := [],
          intent := "recommendation",
          confidence := 1/2,
          exclude_ids := [] }) := by
    rw [c6Payload]
    refine pav_obj _ _ _ _ ?_ rfl rfl ?_ ?_ ?_ ?_ ?_ ?_ rfl
    · show decide ((0 : ℚ) ≤ 1/2 ∧ (1/2 : ℚ) ≤ 1) = true
      exact decide_eq_true (by norm_num)
    · decide
    · decide
    · decide
    · decide
    · decide
    · exact validate_confidence_roundtrip (1/2) (by norm_num) (by norm_num)
  rw [h0, c6_aad_first]

theorem c6_second_pass :
    parse_and_validate_json_response (filtersToPayload c6F1) = some c6F2 := by
  have h0 : parse_and_validate_json_response (filtersToPayload c6F1) =
      some (apply_ambiguity_detection c6F1) := by
    rw [filtersToPayload]
    refine pav_obj _ _ _ _ ?_ rfl rfl ?_ ?_ ?_ ?_ ?_ ?_ rfl
    · show decide ((0 : ℚ) ≤ c6F1.confidence ∧ c6F1.confidence ≤ 1) = true
      exact decide_eq_true (by norm_num [c6F1])
    · decide
    · decide
    · decide
    · decide
    · decide
    · show validate_confidence (.float c6F1.confidence) = c6F1.confidence
      exact validate_confidence_roundtrip _ (by norm_num [c6F1])
        (by norm_num [c6F1])
  rw [h0, c6_aad_second]

theorem c6_payload_genres_strings : payloadGenresAllStrings c6Payload := by
  intro x hx
  rcases List.mem_singleton.mp hx with rfl
  exact ⟨"28", rfl⟩

/-- C6 (amended): `_parse_and_validate_json_response` is *not* idempotent on
its own valid output, but it is idempotent up to confidence recalibration.
For any accepted payload whose `genres` entries are strings (the form the AI
prompt mandates), feeding the produced filters value back through validation
yields exactly one more `_apply_ambiguity_detection` pass over it: genres,
year range, rating range, keywords, intent and exclude list are reproduced
unchanged, while the confidence may drift (the ≥2-signal boost re-applies,
see the counterexample). -/
theorem C6_second_validation_reproduces_filters_modulo_confidence
    (j : Json) (f : ExtractedFilters)
    (h : parse_and_validate_json_response j = some f)
    (hgs : payloadGenresAllStrings j) :
    parse_and_validate_json_response (filtersToPayload f) =
      some (apply_ambiguity_detection f) ∧
    (apply_ambiguity_detection f).genres = f.genres ∧
    (apply_ambiguity_detection f).year_range = f.year_range ∧
    (apply_ambiguity_detection f).rating_range = f.rating_range ∧
    (apply_ambiguity_detection f).keywords = f.keywords ∧
    (apply_ambiguity_detection f).intent = f.intent ∧
    (apply_ambiguity_detection f).exclude_ids = f.exclude_ids := by
  have hv : ValidOutput f := pav_valid_output j f h hgs
  exact ⟨pav_roundtrip f hv, aad_genres f, aad_year f, aad_rating f,
    aad_keywords f,
    aad_intent_preserved f hv.intent_valid hv.rec_conf hv.rec_count
      hv.count0_clar,
    aad_exclude f⟩

/-- Counterexample to C6 as stated: the payload `c6Payload` (genre 28, years
1990–1999, intent recommendation, confidence 0.5) validates to `c6F1` with
confidence 0.55, but re-validating `c6F1` yields `c6F2` with confidence
0.605 ≠ 0.55 — the ≥2-signal boost of `_apply_ambiguity_detection`
re-applies on every pass, so validation is not idempotent. -/
theorem C6_idempotence_fails_counterexample :
    parse_and_validate_json_response c6Payload = some c6F1 ∧
    parse_and_validate_json_response (filtersToPayload c6F1) = some c6F2 ∧
    c6F2 ≠ c6F1 :=
  ⟨c6_first_pass, c6_second_pass, by
    intro heq
    have hc := congrArg ExtractedFilters.confidence heq
    norm_num [c6F1, c6F2] at hc⟩

/-- Witness for C6: the amended theorem applied to the concrete payload
`c6Payload` and its validated output `c6F1`. -/
theorem C6_second_validation_witness :
    parse_and_validate_json_response (filtersToPayload c6F1) =
      some (apply_ambiguity_detection c6F1) ∧
    (apply_ambiguity_detection c6F1).genres = c6F1.genres ∧
    (apply_ambiguity_detection c6F1).intent = c6F1.intent :=
  ⟨(C6_second_validation_reproduces_filters_modulo_confidence c6Payload c6F1
      c6_first_pass c6_payload_genres_strings).1,
   (C6_second_validation_reproduces_filters_modulo_confidence c6Payload c6F1
      c6_first_pass c6_payload_genres_strings).2.1,
   (C6_second_validation_reproduces_filters_modulo_confidence c6Payload c6F1
      c6_first_pass c6_payload_genres_strings).2.2.2.2.2.1⟩

/-! ### C5 — out-of-range confidence: rejection, recovery, fallback -/

theorem vjs_conf_out_of_range (fields : List (String × Json)) (c : ℚ)
    (hc : (jsonGet fields "confidence").bind jnumQ = some c)
    (hout : c < 0 ∨ 1 < c) :
    validate_json_structure fields = false ∧
    parse_and_validate_json_response (.obj fields) = none := by
  have hrange : ¬ ((0:ℚ) ≤ c ∧ c ≤ 1) := by
    rcases hout with h | h
    · exact fun hh => absurd hh.1 (not_le.mpr h)
    · exact fun hh => absurd hh.2 (not_le.mpr h)
  have h1 : validate_json_structure fields = false := by
    simp only [validate_json_structure, hc]
    simp [hrange]
  refine ⟨h1, ?_⟩
  simp [parse_and_validate_json_response, h1]

theorem pav_obj_nokw (f : ExtractedFilters) (fields : List (String × Json))
    (gl : List Json)
    (hvjs : validate_json_structure fields = true)
    (hg : jsonGet fields "genres" = some (.arr gl))
    (hk : jsonGet fields "keywords" = none)
    (hgr : extract_and_validate_genres gl = f.genres)
    (hyy : extract_and_validate_year_range (jsonGet fields "year_range") =
      f.year_range)
    (hrr : extract_and_validate_rating_range fields = f.rating_range)
    (hkw : f.keywords = [])
    (hit : validate_intent ((jsonGet fields "intent").getD .null) = f.intent)
    (hcf : validate_confidence ((jsonGet fields "confidence").getD .null) =
      f.confidence)
    (hex : f.exclude_ids = []) :
    parse_and_validate_json_response (.obj fields) =
      some (apply_ambiguity_detection f) := by
  simp only [parse_and_validate_json_response]
  rw [if_pos hvjs, hg, hk]
  show some (apply_ambiguity_detection {
      genres := extract_and_validate_genres gl
      year_range := extract_and_validate_year_range (jsonGet fields "year_range")
      rating_range := extract_and_validate_rating_range fields
      keywords := []
      intent := validate_intent ((jsonGet fields "intent").getD .null)
      confidence := validate_confidence ((jsonGet fields "confidence").getD .null)
      exclude_ids := [] }) = some (apply_ambiguity_detection f)
  rw [hgr, hyy, hrr, hit, hcf]
  obtain ⟨fg, fy, fr, fk, fi, fc, fe⟩ := f
  have hkw2 : fk = [] := hkw
  have hex2 : fe = [] := hex
  subst hkw2
  subst hex2
  rfl

theorem c5_frag_aad :
    apply_ambiguity_detection c5FragFilters = c5FragFilters := by
  norm_num [apply_ambiguity_detection, filterCount, c5FragFilters]

theorem c5_frag_pav :
    parse_and_validate_json_response c5Fragment = some c5FragFilters := by
  have h0 : parse_and_validate_json_response c5Fragment =
      some (apply_ambiguity_detection c5FragFilters) := by
    rw [c5Fragment]
    refine pav_obj_nokw _ _ _ ?_ rfl rfl ?_ ?_ ?_ rfl ?_ ?_ rfl
    · show decide ((0 : ℚ) ≤ 9/10 ∧ (9/10 : ℚ) ≤ 1) = true
      exact decide_eq_true (by norm_num)
    · decide
    · decide
    · decide
    · decide
    · exact validate_confidence_roundtrip (9/10) (by norm_num) (by norm_num)
  rw [h0, c5_frag_aad]

theorem c5_top_rejected :
    parse_and_validate_json_response c5TopDoc = none := by
  rw [c5TopDoc]
  refine (vjs_conf_out_of_range _ (3/2) ?_ (Or.inr (by norm_num))).2
  rfl

theorem c5_recovery_result :
    process_ai_response 2024 (some c5TopDoc) (some c5Fragment) "accion" =
      c5FragFilters := by
  simp [process_ai_response, c5_top_rejected, c5_frag_pav]

/-- C5 (amended): any payload whose `confidence` is a number outside
`[0, 1]` fails structural validation (`_validate_json_structure` is false
and `_parse_and_validate_json_response` yields `None`).
`process_ai_response` then runs the mixed-content recovery pass over the
raw text: when that pass yields a document that validates, its filters are
returned; only when it yields nothing usable does the deterministic
pattern-extraction fallback run, with its confidence capped at 0.4.  The
unconditional fallback the spec describes therefore holds exactly when
recovery also fails. -/
theorem C5_invalid_confidence_recovery_or_fallback
    (fields : List (String × Json)) (extracted : Option Json)
    (q : String) (currentYear : Int) (c : ℚ)
    (hc : (jsonGet fields "confidence").bind jnumQ = some c)
    (hout : c < 0 ∨ 1 < c) :
    validate_json_structure fields = false ∧
    parse_and_validate_json_response (.obj fields) = none ∧
    (∀ g, extracted.bind parse_and_validate_json_response = some g →
      process_ai_response currentYear (some (.obj fields)) extracted q = g) ∧
    (extracted.bind parse_and_validate_json_response = none →
      process_ai_response currentYear (some (.obj fields)) extracted q =
        { extract_keywords_with_patterns currentYear q with
          confidence :=
            min (extract_keywords_with_patterns currentYear q).confidence
              (4/10) }) := by
  obtain ⟨h1, h2⟩ := vjs_conf_out_of_range fields c hc hout
  refine ⟨h1, h2, ?_, ?_⟩
  · intro g hg
    simp [process_ai_response, h2, hg]
  · intro hn
    simp [process_ai_response, h2, hn]

/-- Counterexample to C5 as stated (unconditional fallback): `c5TopDoc` has
confidence 1.5 and is rejected, but its serialized form nests `c5Fragment`,
which the first regex of `_extract_json_from_mixed_content` recovers
(checked against the source regexes) and which validates; so
`process_ai_response` returns the fragment's filters, confidence 0.9, and
not the pattern fallback with confidence capped at 0.4. -/
theorem C5_nested_fragment_counterexample :
    parse_and_validate_json_response c5TopDoc = none ∧
    parse_and_validate_json_response c5Fragment = some c5FragFilters ∧
    process_ai_response 2024 (some c5TopDoc) (some c5Fragment) "accion" =
      c5FragFilters ∧
    process_ai_response 2024 (some c5TopDoc) (some c5Fragment) "accion" ≠
      { extract_keywords_with_patterns 2024 "accion" with
        confidence :=
          min (extract_keywords_with_patterns 2024 "accion").confidence
            (4/10) } := by
  refine ⟨c5_top_rejected, c5_frag_pav, c5_recovery_result, ?_⟩
  intro heq
  rw [c5_recovery_result] at heq
  have hcfe : (9:ℚ)/10 =
      min (extract_keywords_with_patterns 2024 "accion").confidence (4/10) :=
    congrArg ExtractedFilters.confidence heq
  have hle := min_le_right
    (extract_keywords_with_patterns 2024 "accion").confidence ((4:ℚ)/10)
  rw [← hcfe] at hle
  norm_num at hle

/-- Witness for C5 (amended): the scenario payload
`{"genres": ["28"], "intent": "recommendation", "confidence": 1.5}` with no
recoverable fragment, evaluated through the theorem: rejected, and the
fallback leg fires. -/
theorem C5_invalid_confidence_witness :
    validate_json_structure [("genres", Json.arr [Json.str "28"]),
        ("intent", Json.str "recommendation"),
        ("confidence", Json.float (3/2))] = false ∧
    parse_and_validate_json_response (.obj [("genres", Json.arr [Json.str "28"]),
        ("intent", Json.str "recommendation"),
        ("confidence", Json.float (3/2))]) = none ∧
    process_ai_response 2024 (some (.obj [("genres", Json.arr [Json.str "28"]),
        ("intent", Json.str "recommendation"),
        ("confidence", Json.float (3/2))])) none "" =
      { extract_keywords_with_patterns 2024 "" with
        confidence :=
          min (extract_keywords_with_patterns 2024 "").confidence (4/10) } :=
  ⟨(C5_invalid_confidence_recovery_or_fallback [("genres", Json.arr [Json.str "28"]),
      ("intent", Json.str "recommendation"),
      ("confidence", Json.float (3/2))] none "" 2024 (3/2) rfl
      (Or.inr (by norm_num))).1,
   (C5_invalid_confidence_recovery_or_fallback [("genres", Json.arr [Json.str "28"]),
      ("intent", Json.str "recommendation"),
      ("confidence", Json.float (3/2))] none "" 2024 (3/2) rfl
      (Or.inr (by norm_num))).2.1,
   (C5_invalid_confidence_recovery_or_fallback [("genres", Json.arr [Json.str "28"]),
      ("intent", Json.str "recommendation"),
      ("confidence", Json.float (3/2))] none "" 2024 (3/2) rfl
      (Or.inr (by norm_num))).2.2.2 rfl⟩
